import Mathlib

/-!
HTML sanitizer comparison workbench (`src/index.js`)

A shallow embedding of the sanitizer / frame registries, the `Previewer` class, the
initialisation and bulk refresh of the previewer set, the scroll synchronisation, the layout
toggles and the code diff of `src/index.js`, followed by the properties proved about them.

Conventions of the embedding

* A JavaScript call that may throw returns `Except JsError _`.
* `Array.prototype.find` is `List.find?`; reading a property of its `undefined` result is the
  `TypeError` modelled by `JsError.undefinedProperty`.
* `forEach` loops that assign to a captured variable are `List.foldlM` in the `Except` monad:
  an exception leaves the loop at once.
* The module-level singletons `TJSanitizers`, `TJFrames` and `TJPreviewers` are passed
  explicitly (as arguments, or as a field of `Page`).
* A top-level function that changes the page before it may throw returns an `Outcome`: the
  page it left and the exception, if any; its loops are `forEachKeep`.
-/

namespace Preview

/-! ## Errors -/

/-- Exceptions that the program can raise. The first two are the `TypeError`s raised by the
JavaScript engine on `undefined.prop` and `null.prop`; the third is any exception thrown inside
a sanitizer supplied by an external library. -/
inductive JsError where
  | undefinedProperty (prop : String)
  | nullProperty (prop : String)
  | thrown (message : String)
  deriving DecidableEq, Repr

/-! ## Sanitizer plugins (lines 12-115) -/

/-- Second argument of `dompurify.sanitize` as built at lines 39-110. -/
structure DompurifyConfig where
  ALLOWED_TAGS : List String
  ALLOWED_ATTR : List String
  deriving DecidableEq, Repr

/-- The two imported sanitizer libraries (`tinymce-word-paste-filter`, `dompurify`). They are not
part of the repository, so they are parameters of the embedding. A library call either returns a
string or throws (the message of the exception is kept). -/
structure Libs where
  tinymceWordPasteFilter : String → Except String String
  dompurifySanitize : String → Option DompurifyConfig → Except String String

/-- One entry of a sanitizer registry: `{ name, description, sanitizerMethod }`. -/
structure SanitizerPlugin where
  name : String
  description : String
  sanitizerMethod : String → Except String String

/-- The `config` object of the `dompurify-tjwhitelist` plugin (lines 39-110). -/
def tjWhitelistConfig : DompurifyConfig where
  ALLOWED_TAGS :=
    ["strong", "em", "b", "i", "p", "code", "pre", "tt", "samp", "kbd", "var", "sub", "sup",
     "dfn", "cite", "big", "small", "address", "hr", "br", "div", "span", "h1", "h2", "h3",
     "h4", "h5", "h6", "ul", "ol", "li", "dl", "dt", "dd", "abbr", "acronym", "a", "img",
     "blockquote", "del", "ins", "style", "table", "thead", "tbody", "tr", "th", "td", "font",
     "section", "u", "bdi"]
  ALLOWED_ATTR :=
    ["href", "src", "width", "height", "alt", "cite", "datetime", "title", "class", "name",
     "xml:lang", "abbr", "style", "color"]

/-- The constant `sanitizerPlugins` (lines 12-115). -/
def sanitizerPlugins (libs : Libs) : List SanitizerPlugin :=
  [ { name := "original"
      description := "Original HTML"
      sanitizerMethod := fun str => .ok str },
    { name := "tinymce"
      description := "TinyMCE Word Paste"
      sanitizerMethod := fun str => libs.tinymceWordPasteFilter str },
    { name := "dompurify"
      description := "DOMPurify (standard)"
      sanitizerMethod := fun str => libs.dompurifySanitize str none },
    { name := "dompurify-tjwhitelist"
      description := "DOMPurify (TJ whitelist)"
      sanitizerMethod := fun str => libs.dompurifySanitize str (some tjWhitelistConfig) } ]

/-! ## The `Sanitizers` class (lines 190-212) -/

/-- Class `Sanitizers`: its only field is the plugin array. -/
structure Sanitizers where
  plugins : List SanitizerPlugin

/-- The expression `this.plugins.find((s) => s.name === sanitizerName)`. -/
def Sanitizers.find (self : Sanitizers) (sanitizerName : String) : Option SanitizerPlugin :=
  self.plugins.find? (fun s => s.name == sanitizerName)

/-- Calling a sanitizer function: an exception thrown inside it propagates to the caller. -/
def callSanitizer (f : String → Except String String) (str : String) : Except JsError String :=
  match f str with
  | .ok out => .ok out
  | .error message => .error (.thrown message)

/-- Method `description(sanitizerName)` (lines 194-196). -/
def Sanitizers.description (self : Sanitizers) (sanitizerName : String) :
    Except JsError String :=
  match self.find sanitizerName with
  | some s => .ok s.description
  | none => .error (.undefinedProperty "description")

/-- Method `sanitizerMethod(sanitizerName)` (lines 197-199). -/
def Sanitizers.sanitizerMethod (self : Sanitizers) (sanitizerName : String) :
    Except JsError (String → Except String String) :=
  match self.find sanitizerName with
  | some s => .ok s.sanitizerMethod
  | none => .error (.undefinedProperty "sanitizerMethod")

/-- Method `sanitize(str, sanitizerName)` (lines 200-204). -/
def Sanitizers.sanitize (self : Sanitizers) (str : String) (sanitizerName : String) :
    Except JsError String :=
  match self.find sanitizerName with
  | some s => callSanitizer s.sanitizerMethod str
  | none => .error (.undefinedProperty "sanitizerMethod")

/-- Method `sanitizeChain(str, sanitizerNameList)` (lines 205-211): `output` starts as `str`
and every iteration of the `forEach` overwrites it with `this.sanitize(output, sanitizerName)`. -/
def Sanitizers.sanitizeChain (self : Sanitizers) (str : String)
    (sanitizerNameList : List String) : Except JsError String :=
  sanitizerNameList.foldlM (fun output sanitizerName => self.sanitize output sanitizerName) str

/-- The singleton `TJSanitizers = new Sanitizers(sanitizerPlugins)` (line 214). -/
def TJSanitizers (libs : Libs) : Sanitizers :=
  { plugins := sanitizerPlugins libs }

/-! ## Rendering surfaces -/

/-- Modelled from the spec: the `RenderTarget` capability set
`{ reset(), write(html), scrollOffset() → (x,y), setScrollOffset(x,y) }` of section 6, which the
source reaches through the browser objects `iframe.contentWindow.document` and
`iframe.contentWindow`. `markup` is what has been written into the document since its last
reset, `scrollX` and `scrollY` are the scroll offset of the window. -/
structure Iframe where
  markup : String
  scrollX : Int
  scrollY : Int
  deriving DecidableEq, Repr

/-- Modelled from the spec: `reset()`, reached as `contentWindow.document.open()`: the document
is emptied. -/
def Iframe.documentOpen (iframe : Iframe) : Iframe :=
  { iframe with markup := "" }

/-- Modelled from the spec: `write(html)`, reached as `contentWindow.document.write(str)`: the
text is appended to what the document holds. -/
def Iframe.documentWrite (iframe : Iframe) (str : String) : Iframe :=
  { iframe with markup := iframe.markup ++ str }

/-- Modelled from the spec: `contentWindow.document.close()` ends the writing started by
`open()`; the capability set has no counterpart and the content stays as written. -/
def Iframe.documentClose (iframe : Iframe) : Iframe :=
  iframe

/-- Modelled from the spec: `setScrollOffset(x,y)`, reached as `contentWindow.scrollTo(x, y)`:
first argument horizontal, second vertical. -/
def Iframe.scrollTo (iframe : Iframe) (x y : Int) : Iframe :=
  { iframe with scrollX := x, scrollY := y }

/-! ## Frame plugins (lines 117-155) and the `Frames` class (lines 216-227) -/

/-- One entry of a frame registry: `{ name, description, injectMethod }`. The first argument
of `injectMethod` is the value of `document.getElementById(..)`: an iframe or `null`; on success
the function returns the state in which it leaves that iframe. -/
structure FramePlugin where
  name : String
  description : String
  injectMethod : Option Iframe → String → Except JsError Iframe

/-- The three statements `open(); write(content); close()` shared by the built-in injectors.
On a `null` iframe the first property read `iframe.contentWindow` throws. -/
def openWriteClose (iframe : Option Iframe) (content : String) : Except JsError Iframe :=
  match iframe with
  | none => .error (.nullProperty "contentWindow")
  | some target => .ok ((target.documentOpen.documentWrite content).documentClose)

/-- Template literal of the `redbase` injector (line 131). -/
def redbaseContent (str : String) : String :=
  "<html><body style=\"color: red;\">" ++ str ++ "</body></html>"

/-- Template literal of the `tjcss` injector (lines 141-149). -/
def tjcssContent (str : String) : String :=
  "<html>\n<link rel=\"stylesheet\" media=\"all\" href=\"https://assets.traveljoy.com/assets/application-75de3a6d6a109bfe23eb5ba934a0bf933b7802d2b829c7aa315662434a717048.css\">\n<body>\n<div class=\"tab-pane active\" id=\"trip-feed\">\n<div class=\"message adhoc-message\"><div class=\"panel\"><div class=\"panel-body\">\n"
    ++ str ++ "\n</div></div></div></div>\n</body>\n</html>"

/-- The constant `framePlugins` (lines 117-155). -/
def framePlugins : List FramePlugin :=
  [ { name := "clean"
      description := "Clean iframe"
      injectMethod := fun iframe str => openWriteClose iframe str },
    { name := "redbase"
      description := "Red base style"
      injectMethod := fun iframe str => openWriteClose iframe (redbaseContent str) },
    { name := "tjcss"
      description := "TJ CSS (prod)"
      injectMethod := fun iframe str => openWriteClose iframe (tjcssContent str) } ]

/-- Class `Frames`: its only field is the plugin array. -/
structure Frames where
  plugins : List FramePlugin

/-- The expression `this.plugins.find((f) => f.name === frameName)`. -/
def Frames.find (self : Frames) (frameName : String) : Option FramePlugin :=
  self.plugins.find? (fun f => f.name == frameName)

/-- Method `description(frameName)` (lines 221-223). -/
def Frames.description (self : Frames) (frameName : String) : Except JsError String :=
  match self.find frameName with
  | some f => .ok f.description
  | none => .error (.undefinedProperty "description")

/-- Method `injectMethod(frameName)` (lines 224-226). -/
def Frames.injectMethod (self : Frames) (frameName : String) :
    Except JsError (Option Iframe → String → Except JsError Iframe) :=
  match self.find frameName with
  | some f => .ok f.injectMethod
  | none => .error (.undefinedProperty "injectMethod")

/-- The singleton `TJFrames = new Frames(framePlugins)` (line 229). -/
def TJFrames : Frames :=
  { plugins := framePlugins }

/-! ## Previewers (lines 157-188 and 231-292) -/

/-- One entry of the `previewers` configuration array. -/
structure PreviewerConfig where
  name : String
  description : String
  sanitizers : List String
  frame : String
  deriving DecidableEq, Repr

/-- The variable `previewers` (lines 157-188). -/
def previewers : List PreviewerConfig :=
  [ { name := "ogclean", description := "", sanitizers := ["original"], frame := "clean" },
    { name := "dompurifyTjwhitelistTjcss", description := "",
      sanitizers := ["original", "dompurify-tjwhitelist"], frame := "tjcss" },
    { name := "tinymceTjcss", description := "",
      sanitizers := ["original", "tinymce"], frame := "redbase" },
    { name := "dompurifyTjcss", description := "",
      sanitizers := ["original", "dompurify"], frame := "redbase" },
    { name := "dompurifyTjwhitelist", description := "",
      sanitizers := ["original", "dompurify-tjwhitelist"], frame := "redbase" } ]

/-- Instances of class `Previewer`: the four fields set by the constructor. -/
structure Previewer where
  name : String
  description : String
  sanitizerNameList : List String
  frameName : String
  deriving DecidableEq, Repr

/-- The constructor `new Previewer({ name, description, sanitizers, frame })` (lines 232-237). -/
def Previewer.new (config : PreviewerConfig) : Previewer :=
  { name := config.name
    description := config.description
    sanitizerNameList := config.sanitizers
    frameName := config.frame }

/-- Method `iframeId` (line 239). -/
def Previewer.iframeId (self : Previewer) : String :=
  "viewer-" ++ self.name

/-- Method `containerId` (line 240). -/
def Previewer.containerId (self : Previewer) : String :=
  "previewer-" ++ self.name

/-! ## Page state -/

/-- A child `<div class="previewer" ...>` of the preview area `#previewers`: its `id`, its
`classList` and the markup it was parsed from. -/
structure Container where
  id : String
  classList : List String
  html : String
  deriving DecidableEq, Repr

/-- Props of the `ReactDiffViewer` element rendered by `viewCodeDiff` (lines 337-343). -/
structure DiffProps where
  oldValue : String
  newValue : String
  splitView : Bool
  compareMethod : String
  deriving DecidableEq, Repr

/-- The mutable state the program works on: the global array `TJPreviewers`, the value of the
text area `#inputRawHTML`, and the iframes of the page in document order, each with its `id`
attribute. All iframes live inside the preview area `#previewers`, whose children are
`containers`; `diffViewers` are the `<div class="viewer overflow">` elements of the diff
containers, each with its `id` and the props of the React element rendered into it, if any. -/
structure Page where
  TJPreviewers : List Previewer
  inputRawHTML : String
  iframes : List (String × Iframe)
  containers : List Container := []
  diffViewers : List (String × Option DiffProps) := []
  deriving DecidableEq, Repr

/-- First element with the given id, as `document.getElementById(id)`; `none` stands for
`null`. -/
def Page.getElementById (page : Page) (id : String) : Option Iframe :=
  (page.iframes.find? (fun e => e.1 == id)).map Prod.snd

/-- Store the new state of the first iframe that carries `id`. -/
def setFirst (id : String) (iframe : Iframe) : List (String × Iframe) → List (String × Iframe)
  | [] => []
  | e :: rest => if e.1 == id then (e.1, iframe) :: rest else e :: setFirst id iframe rest

/-- The page after the element returned by `getElementById(id)` has been mutated into
`iframe`. -/
def Page.setElement (page : Page) (id : String) (iframe : Iframe) : Page :=
  { page with iframes := setFirst id iframe page.iframes }

/-- Method `renderSanitizedHTML(str)` (lines 242-244). -/
def Previewer.renderSanitizedHTML (TJSanitizers : Sanitizers) (self : Previewer)
    (str : String) : Except JsError String :=
  TJSanitizers.sanitizeChain str self.sanitizerNameList

/-- Method `getSourceRawHTML()` (lines 246-249). -/
def Previewer.getSourceRawHTML (_self : Previewer) (page : Page) : String :=
  page.inputRawHTML

/-- Method `updatePreviewer()` (lines 251-262): the iframe is fetched, then the inject method
is looked up, then the argument `this.renderSanitizedHTML(this.getSourceRawHTML())` is
evaluated, and last the inject method is called. -/
def Previewer.updatePreviewer (TJSanitizers : Sanitizers) (TJFrames : Frames)
    (self : Previewer) (page : Page) : Except JsError Page :=
  let previewIframe := page.getElementById self.iframeId
  match TJFrames.injectMethod self.frameName with
  | .error e => .error e
  | .ok iframeInjectMethod =>
    match self.renderSanitizedHTML TJSanitizers (self.getSourceRawHTML page) with
    | .error e => .error e
    | .ok sanitized =>
      match iframeInjectMethod previewIframe sanitized with
      | .error e => .error e
      | .ok written => .ok (page.setElement self.iframeId written)

/-! ## Synchronised scrolling (lines 456-479) -/

/-- Body of the `forEach` callback of `allScrollTo` (lines 472-477). -/
def allScrollToStep (sourceIframeId : String) (top left : Int) (page : Page) (p : Previewer) :
    Except JsError Page :=
  if p.iframeId == sourceIframeId then .ok page
  else
    match page.getElementById p.iframeId with
    | none => .error (.nullProperty "contentWindow")
    | some destIframe => .ok (page.setElement p.iframeId (destIframe.scrollTo top left))

/-- Function `allScrollTo(sourceIframeId, top, left)` (lines 470-479). -/
def allScrollTo (sourceIframeId : String) (top left : Int) (page : Page) : Except JsError Page :=
  page.TJPreviewers.foldlM (allScrollToStep sourceIframeId top left) page

/-- The scroll listener registered at lines 462-467. It closes over `sourceIframeId` and the
element carrying that id, reads the element's scroll offset and calls `allScrollTo`. -/
def scrollListener (sourceIframeId : String) (page : Page) : Except JsError Page :=
  match page.getElementById sourceIframeId with
  | none => .error (.nullProperty "contentWindow")
  | some sourceIframe =>
    let x := sourceIframe.scrollX
    let y := sourceIframe.scrollY
    allScrollTo sourceIframeId x y page

/-- Function `initializeSyncScroll()` (lines 456-468). The result is the id captured by the
listener that the call registers on the window of that iframe; running the listener is
`scrollListener` at that id. -/
def initializeSyncScroll (page : Page) : Except JsError String :=
  match page.TJPreviewers[0]? with
  | none => .error (.undefinedProperty "iframeId")
  | some leader =>
    let sourceIframeId := leader.iframeId
    match page.getElementById sourceIframeId with
    | none => .error (.nullProperty "contentWindow")
    | some _ => .ok sourceIframeId


/-! ## Descriptions and container markup (lines 264-291) -/

/-- `Array.prototype.map` with a callback that may throw: the elements are visited in order and
the first exception ends the call. -/
def mapExcept {α β : Type} (f : α → Except JsError β) : List α → Except JsError (List β)
  | [] => .ok []
  | a :: rest =>
    match f a with
    | .error e => .error e
    | .ok b =>
      match mapExcept f rest with
      | .error e => .error e
      | .ok bs => .ok (b :: bs)

/-- The loop of `Array.prototype.join(sep)`: `R` is the string built so far and `k` the index of
the next element; the separator is added in front of every element but the first. -/
def joinLoop (sep : String) : List String → Nat → String → String
  | [], _, R => R
  | element :: rest, k, R =>
    let S := if k > 0 then R ++ sep else R
    joinLoop sep rest (k + 1) (S ++ element)

/-- `Array.prototype.join(sep)` on an array of strings. -/
def jsJoin (sep : String) (l : List String) : String :=
  joinLoop sep l 0 ""

/-- The separator literal of line 287, as it stands in the source file. -/
def chainSeparator : String :=
  " \u201a\u00dc\u00ed "

/-- Method `renderSanitizerChainDescription` (lines 284-288). -/
def Previewer.renderSanitizerChainDescription (TJSanitizers : Sanitizers) (self : Previewer) :
    Except JsError String :=
  match mapExcept (fun sName => TJSanitizers.description sName) self.sanitizerNameList with
  | .error e => .error e
  | .ok descriptions => .ok (jsJoin chainSeparator descriptions)

/-- Method `renderFrameDescription` (lines 289-291). -/
def Previewer.renderFrameDescription (TJFrames : Frames) (self : Previewer) :
    Except JsError String :=
  TJFrames.description self.frameName

/-- The template literal of `renderOutputIframe` (lines 265-282) with its substitutions
already evaluated. -/
def outputIframeTemplate (containerId name chainDescription frameDescription iframeId : String) :
    String :=
  "<div class=\"previewer\" id=\"" ++
    containerId ++
    "\" data-previewer-name=\"" ++
    name ++
    "\">\n<div class=\"controls\">\n<span class=\"description sanitizerChain\">\uf8ff\u00fc\u00df\u00ba " ++
    chainDescription ++
    "</span>\n<span class=\"description frame\">\uf8ff\u00fc\u00f1\u00ba " ++
    frameDescription ++
    "</span>\n<button class=\"action good copyRawHTMLButton\" data-iframe-id=\"" ++
    iframeId ++
    "\">Copy iframe HTML</button>\n<button class=\"action good maximizeButton\" data-container-id=\"" ++
    containerId ++
    "\">Max/min</button>\n<button class=\"action good pinLeftButton\" data-container-id=\"" ++
    containerId ++
    "\">\u201a\u00dc\u00ea</button>\n<button class=\"action good pinRightButton\" data-container-id=\"" ++
    containerId ++
    "\">\u201a\u00dc\u00ed</button>\n<button class=\"action good overlayButton\" data-container-id=\"" ++
    containerId ++
    "\">Overlay</button>\n<button class=\"action good fullscreenButton\" data-container-id=\"" ++
    containerId ++
    "\">Fullscreen</button>\n<button class=\"action copyRichTextButton\" data-iframe-id=\"" ++
    iframeId ++
    "\">Copy rich text</button>\n<button class=\"action viewCodeDiffButton\" data-iframe-id=\"" ++
    iframeId ++
    "\">View code diff (Prettier)</button>\n<button class=\"action processThisButton\" data-iframe-id=\"" ++
    iframeId ++
    "\">Process this</button>\n</div>\n<iframe class=\"viewer\" id=\"" ++
    iframeId ++
    "\"></iframe>\n</div>"

/-- Method `renderOutputIframe` (lines 264-282). The substitutions of the template literal are
evaluated from left to right, so the chain description is computed before the frame
description, and an exception in either leaves no string. -/
def Previewer.renderOutputIframe (TJSanitizers : Sanitizers) (TJFrames : Frames)
    (self : Previewer) : Except JsError String :=
  match self.renderSanitizerChainDescription TJSanitizers with
  | .error e => .error e
  | .ok chainDescription =>
    match self.renderFrameDescription TJFrames with
    | .error e => .error e
    | .ok frameDescription =>
      .ok (outputIframeTemplate self.containerId self.name chainDescription frameDescription
        self.iframeId)

/-! ## Initialisation and bulk refresh (lines 294-320) -/

/-- What a top-level function leaves behind: the state it reached, and the exception that ended
it when it threw. Unlike a local variable, the page keeps the changes made before a throw. -/
structure Outcome where
  page : Page
  thrown : Option JsError
  deriving DecidableEq, Repr

/-- A `forEach` over an array whose callback changes the page: when the callback throws at an
element, the loop ends there and the page is as the earlier elements left it. -/
def forEachKeep {α : Type} (callback : Page → α → Except JsError Page) :
    List α → Page → Outcome
  | [], page => { page := page, thrown := none }
  | a :: rest, page =>
    match callback page a with
    | .ok page2 => forEachKeep callback rest page2
    | .error e => { page := page, thrown := some e }

/-- An iframe whose document has just been created. -/
def blankIframe : Iframe :=
  { markup := "", scrollX := 0, scrollY := 0 }

/-- Modelled from the spec: `initialize` "clears any existing previewer surfaces". The statement
`previewArea.innerHTML = ""` (line 298) removes every child of the preview area, and with the
children the iframes and diff viewers inside them. -/
def Page.clearPreviewArea (page : Page) : Page :=
  { page with iframes := [], containers := [], diffViewers := [] }

/-- Modelled from the spec: `initialize` "renders their containers". The statement
`previewArea.innerHTML += html` (line 302) makes the browser parse the old markup of the area
followed by `html`: the earlier children are created anew, so their iframes start with a new
document, and the markup of one previewer adds a container with id `containerId` and class
`previewer` that holds an iframe with id `iframeId` (names are taken to be free of characters
that end an attribute value). -/
def Page.appendPreviewerHTML (page : Page) (containerId iframeId html : String) : Page :=
  { page with
    containers := page.containers ++
      [{ id := containerId, classList := ["previewer"], html := html }]
    iframes := page.iframes.map (fun e => (e.1, blankIframe)) ++ [(iframeId, blankIframe)] }

/-- Body of the `forEach` callback of `initialize` (lines 300-303). -/
def initializeStep (TJSanitizers : Sanitizers) (TJFrames : Frames) (page : Page)
    (p : PreviewerConfig) : Except JsError Page :=
  let previewer := Previewer.new p
  match previewer.renderOutputIframe TJSanitizers TJFrames with
  | .error e => .error e
  | .ok html =>
    let page2 := page.appendPreviewerHTML previewer.containerId previewer.iframeId html
    .ok { page2 with TJPreviewers := page2.TJPreviewers ++ [Previewer.new p] }

/-- Function `updatePreviewers()` (lines 310-320). -/
def updatePreviewers (TJSanitizers : Sanitizers) (TJFrames : Frames) (page : Page) : Outcome :=
  let refreshed :=
    forEachKeep (fun pg p => p.updatePreviewer TJSanitizers TJFrames pg) page.TJPreviewers page
  match refreshed.thrown with
  | some e => { page := refreshed.page, thrown := some e }
  | none =>
    match initializeSyncScroll refreshed.page with
    | .error e => { page := refreshed.page, thrown := some e }
    | .ok _ => { page := refreshed.page, thrown := none }

/-- Function `initialize()` (lines 296-308); the bare name is a keyword of Lean. The
configuration array `previewers` is the argument `configs`. `initializeButtonActions()` only
registers listeners on elements of the page and changes nothing of the modelled state. -/
def initializeWorkbench (TJSanitizers : Sanitizers) (TJFrames : Frames)
    (configs : List PreviewerConfig) (page : Page) : Outcome :=
  let created := forEachKeep (initializeStep TJSanitizers TJFrames) configs page.clearPreviewArea
  match created.thrown with
  | some e => { page := created.page, thrown := some e }
  | none => updatePreviewers TJSanitizers TJFrames created.page

/-- The page after `k` calls of `initialize()` one after the other. The call at load time
followed by one click on `#initButton` is `k = 2`; every call registers one more click
listener on that button (lines 306 and 402-405), so later clicks run `initialize()` more than
once each. -/
def initializeTimes (TJSanitizers : Sanitizers) (TJFrames : Frames)
    (configs : List PreviewerConfig) : Nat → Page → Page
  | 0, page => page
  | k + 1, page =>
    (initializeWorkbench TJSanitizers TJFrames configs
      (initializeTimes TJSanitizers TJFrames configs k page)).page

/-! ## Layout toggles (lines 437-453 and 481-488) -/

/-- The array `cssButtonToggles` (lines 437-443). -/
def cssButtonToggles : List String :=
  ["maximize", "pinLeft", "pinRight", "overlay", "fullscreen"]

/-- First container with the given id, as `document.getElementById(containerId)`. -/
def Page.getContainerById (page : Page) (id : String) : Option Container :=
  page.containers.find? (fun c => c.id == id)

/-- Store the new state of the first container that carries `id`. -/
def setFirstContainer (id : String) (container : Container) : List Container → List Container
  | [] => []
  | c :: rest =>
    if c.id == id then container :: rest else c :: setFirstContainer id container rest

/-- Modelled from the spec: "flipping a named flag on that container". `classList.remove(token)`
takes the token out of the list. -/
def classListRemove (classList : List String) (token : String) : List String :=
  classList.filter (fun c => c != token)

/-- Modelled from the spec: "flipping a named flag on that container". `classList.add(token)`
puts the token at the end of the list unless it is there already. -/
def classListAdd (classList : List String) (token : String) : List String :=
  if classList.contains token then classList else classList ++ [token]

/-- Function `toggle(containerId, className)` (lines 481-488). -/
def toggle (containerId className : String) (page : Page) : Except JsError Page :=
  match page.getContainerById containerId with
  | none => .error (.nullProperty "classList")
  | some container =>
    if container.classList.contains className then
      .ok { page with
            containers := setFirstContainer containerId
              { container with classList := classListRemove container.classList className }
              page.containers }
    else
      .ok { page with
            containers := setFirstContainer containerId
              { container with classList := classListAdd container.classList className }
              page.containers }

/-! ## Code diff (lines 324-365, 423-435 and 527-532) -/

/-- What the diff action takes from outside the repository: `prettier.format` with the html
parser, which returns a string or throws, and the browser's reading of
`contentWindow.document.body.innerHTML` as a function of the markup written into the iframe. -/
structure DiffEnv where
  prettierFormat : String → Except String String
  bodyInnerHTML : String → String

/-- Function `getPrettierHTML(code)` (lines 527-532). -/
def getPrettierHTML (env : DiffEnv) (code : String) : Except JsError String :=
  match env.prettierFormat code with
  | .ok formatted => .ok formatted
  | .error message => .error (.thrown message)

/-- The template literal `diffViewerContainer` (lines 349-359). -/
def diffViewerContainer (diffId : String) : String :=
  "\n  <div class=\"previewer diffViewer maximize\" id=\"diffContainer-" ++
    diffId ++
    "\">\n<div class=\"controls\">\n<span class=\"description sanitizerChain\">Code diff</span>\n<span class=\"description frame\">Yes</span>\n<button class=\"action good maximizeButton\" data-container-id=\"diffContainer-" ++
    diffId ++
    "\">Max/min</button>\n<button class=\"action good fullscreenButton\" data-container-id=\"diffContainer-" ++
    diffId ++
    "\">Fullscreen</button>\n</div>\n<div class=\"viewer overflow\" id=\"diffViewer-" ++
    diffId ++
    "\"></div>\n</div>\n  "

/-- First diff viewer with the given id, as `document.getElementById(id)`. -/
def Page.getDiffViewerById (page : Page) (id : String) : Option (Option DiffProps) :=
  (page.diffViewers.find? (fun e => e.1 == id)).map Prod.snd

/-- Store what is rendered in the first diff viewer that carries `id`. -/
def setFirstDiffViewer (id : String) (props : Option DiffProps) :
    List (String × Option DiffProps) → List (String × Option DiffProps)
  | [] => []
  | e :: rest => if e.1 == id then (e.1, props) :: rest else e :: setFirstDiffViewer id props rest

/-- The statement `previewArea.insertAdjacentHTML("beforeend", diffViewerContainer)`
(line 362): the parsed markup is added after the last child of the preview area, a container
with id `diffContainer-<diffId>` holding an empty viewer with id `diffViewer-<diffId>`; the
earlier children are left alone. -/
def Page.insertDiffContainer (page : Page) (diffId : String) : Page :=
  { page with
    containers := page.containers ++
      [{ id := "diffContainer-" ++ diffId
         classList := ["previewer", "diffViewer", "maximize"]
         html := diffViewerContainer diffId }]
    diffViewers := page.diffViewers ++ [("diffViewer-" ++ diffId, none)] }

/-- Function `viewCodeDiff(oldCode, newCode)` (lines 324-365). The argument `randomInt` is the
value of `Math.floor(Math.random() * 10000 + 1)` in this call, a whole number from 1 to 10000.
`ReactDOM.render` puts the `ReactDiffViewer` element with the given props into the element
that `document.getElementById` returns for `diffViewer-<diffId>`. -/
def viewCodeDiff (oldCode newCode : String) (randomInt : Nat) (page : Page) :
    Except JsError Page :=
  let diffId := toString randomInt
  let page2 := page.insertDiffContainer diffId
  match page2.getDiffViewerById ("diffViewer-" ++ diffId) with
  | none => .error (.thrown "Target container is not a DOM element.")
  | some _ =>
    .ok { page2 with
          diffViewers := setFirstDiffViewer ("diffViewer-" ++ diffId)
            (some { oldValue := oldCode, newValue := newCode, splitView := true,
                    compareMethod := "diffWordsWithSpace" })
            page2.diffViewers }

/-- The click listener of a `.viewCodeDiffButton` (lines 424-434); `iframeId` is the
`data-iframe-id` of the button. The arguments of `viewCodeDiff` are evaluated from left to
right. -/
def viewCodeDiffButtonClick (env : DiffEnv) (iframeId : String) (randomInt : Nat)
    (page : Page) : Except JsError Page :=
  let origHTML := page.inputRawHTML
  match page.getElementById iframeId with
  | none => .error (.nullProperty "contentWindow")
  | some iframe =>
    let newHTML := env.bodyInnerHTML iframe.markup
    match getPrettierHTML env origHTML with
    | .error e => .error e
    | .ok oldCode =>
      match getPrettierHTML env newHTML with
      | .error e => .error e
      | .ok newCode => viewCodeDiff oldCode newCode randomInt page

/-! ## Clipboard (lines 407-421 and 490-525) -/

/-- Function `copyToClipboard(iframeId, copyAsRichText)` (lines 490-525). The result is the
argument of `navigator.clipboard.writeText`; the two callbacks of the promise only log. The
body never reads `copyAsRichText`: the lines that did are commented out. -/
def copyToClipboard (env : DiffEnv) (iframeId : String) (_copyAsRichText : Bool)
    (page : Page) : Except JsError String :=
  match page.getElementById iframeId with
  | none => .error (.nullProperty "contentWindow")
  | some iframe =>
    let content := env.bodyInnerHTML iframe.markup
    .ok content

/-- The click listener of a `.copyRawHTMLButton` (lines 408-411). -/
def copyRawHTMLButtonClick (env : DiffEnv) (iframeId : String) (page : Page) :
    Except JsError String :=
  copyToClipboard env iframeId false page

/-- The click listener of a `.copyRichTextButton` (lines 415-420). -/
def copyRichTextButtonClick (env : DiffEnv) (iframeId : String) (page : Page) :
    Except JsError String :=
  copyToClipboard env iframeId true page

/-! ## Changes of the source text (lines 367-377, 534-538, 1127-1129 and 1135-1137) -/

/-- The `input` listeners of `#inputRawHTML` and `#inputPasteHTML` (lines 367-377): after
either, the text area holds the new text `value`, and `updatePreviewers()` runs. The editable
area `#inputPasteHTML` is not part of the modelled state. -/
def inputChanged (TJSanitizers : Sanitizers) (TJFrames : Frames) (value : String)
    (page : Page) : Outcome :=
  updatePreviewers TJSanitizers TJFrames { page with inputRawHTML := value }

/-- Function `clear()` (lines 534-538). -/
def clear (TJSanitizers : Sanitizers) (TJFrames : Frames) (page : Page) : Outcome :=
  updatePreviewers TJSanitizers TJFrames { page with inputRawHTML := "" }

/-- Functions `addExample()` and `addFlightsExample()` (lines 540-1138): each stores a literal
of the source file, passed here as `exampleText`, in the text area and runs
`updatePreviewers()`. -/
def addExample (TJSanitizers : Sanitizers) (TJFrames : Frames) (exampleText : String)
    (page : Page) : Outcome :=
  updatePreviewers TJSanitizers TJFrames { page with inputRawHTML := exampleText }

/-- The state that `initialize()` establishes on the built-in configuration: the previewer
array is not empty, holds built-in previewers only, and every built-in previewer has its
iframe on the page. -/
def workbenchReady (page : Page) : Bool :=
  !page.TJPreviewers.isEmpty &&
  page.TJPreviewers.all (fun p => (previewers.map Previewer.new).contains p) &&
  previewers.all (fun c => (page.getElementById (Previewer.new c).iframeId).isSome)

/-! ## Specification-side definitions for the descriptions -/

/-- Strings joined by a separator as the specification words it: one string is itself, and a
longer list is its first string, the separator, and the rest joined. -/
def joinedWith (sep : String) : List String → String
  | [] => ""
  | [d] => d
  | d :: e :: rest => d ++ sep ++ joinedWith sep (e :: rest)

/-! ## Specification-side definitions for the sanitizer chain -/

/-- Left fold of a list of transforms as the specification words it: the output of step `i` is
the input of step `i+1`; a step that throws ends the fold with that exception. -/
def leftFoldTransforms : List SanitizerPlugin → String → Except JsError String
  | [], s => .ok s
  | p :: rest, s =>
    match p.sanitizerMethod s with
    | .ok out => leftFoldTransforms rest out
    | .error message => .error (.thrown message)

/-- A registry used to exercise the chain: `original` is the identity and `upper` turns
the letters `a`-`z` into capitals. -/
def upperRegistry : Sanitizers :=
  { plugins :=
      [ { name := "original", description := "Original HTML",
          sanitizerMethod := fun str => .ok str },
        { name := "upper", description := "Upper case",
          sanitizerMethod := fun str => .ok (String.mk (str.data.map Char.toUpper)) } ] }

/-! ## Concrete data used to exercise the theorems -/

/-- Stand-ins for the two external libraries that return their input unchanged. -/
def idLibs : Libs where
  tinymceWordPasteFilter := fun str => .ok str
  dompurifySanitize := fun str _ => .ok str

/-- A previewer that upper-cases and shows the result in the `redbase` frame. -/
def upperRedbase : Previewer :=
  { name := "up", description := "", sanitizerNameList := ["original", "upper"],
    frameName := "redbase" }

/-- A page whose source is `<p>hi</p>` and whose only surface, `viewer-up`, holds stale text. -/
def upperPage : Page :=
  { TJPreviewers := [upperRedbase]
    inputRawHTML := "<p>hi</p>"
    iframes := [("viewer-up", { markup := "stale", scrollX := 0, scrollY := 0 })] }

/-- The built-in `ogclean` previewer, first entry of `previewers`. -/
def ogclean : Previewer :=
  Previewer.new
    { name := "ogclean", description := "", sanitizers := ["original"], frame := "clean" }

/-- A page whose source is `<b>hi</b>` and whose surface `viewer-ogclean` holds stale text. -/
def ogcleanPage : Page :=
  { TJPreviewers := [ogclean]
    inputRawHTML := "<b>hi</b>"
    iframes := [("viewer-ogclean", { markup := "stale", scrollX := 0, scrollY := 0 })] }

/-- Two previewers: `lead` comes first, `follow` second. -/
def leadPreviewer : Previewer :=
  { name := "lead", description := "", sanitizerNameList := ["original"], frameName := "clean" }

/-- The second previewer of the scroll scenario. -/
def followPreviewer : Previewer :=
  { name := "follow", description := "", sanitizerNameList := ["original"],
    frameName := "clean" }

/-- The scroll scenario: the leader's window is at offset `(10, 20)`, the follower's at
`(0, 0)`. -/
def scrollPage : Page :=
  { TJPreviewers := [leadPreviewer, followPreviewer]
    inputRawHTML := ""
    iframes :=
      [("viewer-lead", { markup := "", scrollX := 10, scrollY := 20 }),
       ("viewer-follow", { markup := "", scrollX := 0, scrollY := 0 })] }

/-- The workbench before the first `initialize()`: no previewer, an empty preview area. -/
def emptyWorkbench : Page :=
  { TJPreviewers := [], inputRawHTML := "<b>hi</b>", iframes := [] }

/-- A previewer whose only sanitizer name is not registered. -/
def brokenPreviewer : Previewer :=
  { name := "broken", description := "", sanitizerNameList := ["missing"], frameName := "clean" }

/-- The configuration entry of `brokenPreviewer`. -/
def brokenConfig : PreviewerConfig :=
  { name := "broken", description := "", sanitizers := ["missing"], frame := "clean" }

/-- The first entry of the built-in configuration. -/
def ogcleanConfig : PreviewerConfig :=
  { name := "ogclean", description := "", sanitizers := ["original"], frame := "clean" }

/-- A surface that still shows what an earlier refresh wrote. -/
def staleIframe : Iframe :=
  { markup := "stale", scrollX := 0, scrollY := 0 }

/-- A page on which the broken previewer comes first and `ogclean` second. -/
def brokenFirstPage : Page :=
  { TJPreviewers := [brokenPreviewer, ogclean]
    inputRawHTML := "<b>hi</b>"
    iframes := [("viewer-broken", staleIframe), ("viewer-ogclean", staleIframe)] }

/-- A page on which `ogclean` comes first, the broken previewer second and `lead` third. -/
def brokenSecondPage : Page :=
  { TJPreviewers := [ogclean, brokenPreviewer, leadPreviewer]
    inputRawHTML := "<b>hi</b>"
    iframes :=
      [("viewer-ogclean", staleIframe), ("viewer-broken", staleIframe),
       ("viewer-lead", staleIframe)] }

/-- A page with two containers: the first is plain, the second is maximized. -/
def togglePage : Page :=
  { TJPreviewers := []
    inputRawHTML := ""
    iframes := []
    containers :=
      [ { id := "previewer-a", classList := ["previewer"], html := "" },
        { id := "previewer-b", classList := ["previewer", "maximize"], html := "" } ] }

/-- A formatter and a body reader that return their input unchanged. -/
def idDiffEnv : DiffEnv where
  prettierFormat := fun code => .ok code
  bodyInnerHTML := fun markup => markup

/-- A page whose source is `<p>a</p>` and whose surface `viewer-x` shows `<p>b</p>`. -/
def diffPage : Page :=
  { TJPreviewers := []
    inputRawHTML := "<p>a</p>"
    iframes := [("viewer-x", { markup := "<p>b</p>", scrollX := 0, scrollY := 0 })] }

/-- The page of `diffPage` after an earlier diff has been shown under the id 42. -/
def collidingDiffPage : Page :=
  { TJPreviewers := []
    inputRawHTML := "<p>a</p>"
    iframes := [("viewer-x", { markup := "<p>b</p>", scrollX := 0, scrollY := 0 })]
    containers :=
      [{ id := "diffContainer-42", classList := ["previewer", "diffViewer", "maximize"],
         html := diffViewerContainer "42" }]
    diffViewers :=
      [("diffViewer-42",
        some { oldValue := "<p>old</p>", newValue := "<p>new</p>", splitView := true,
               compareMethod := "diffWordsWithSpace" })] }

/-- A formatter that rejects every input. -/
def rejectingEnv : DiffEnv where
  prettierFormat := fun _ => .error "SyntaxError: Unexpected closing tag"
  bodyInnerHTML := fun markup => markup

/-- External libraries of which the Word paste filter throws on every input. -/
def throwingLibs : Libs where
  tinymceWordPasteFilter := fun _ => .error "filter failed"
  dompurifySanitize := fun str _ => .ok str

/-- The built-in previewer `tinymceTjcss`, third entry of `previewers`. -/
def tinymceTjcss : Previewer :=
  Previewer.new
    { name := "tinymceTjcss", description := "", sanitizers := ["original", "tinymce"],
      frame := "redbase" }

/-- A page with the stale surfaces of `ogclean` and `tinymceTjcss`; the previewer array is
given by the argument. -/
def twoSurfacePage (sequence : List Previewer) : Page :=
  { TJPreviewers := sequence
    inputRawHTML := "<b>hi</b>"
    iframes := [("viewer-ogclean", staleIframe), ("viewer-tinymceTjcss", staleIframe)] }

/-- A previewer named `x` with the `clean` frame. -/
def xClean : Previewer :=
  { name := "x", description := "", sanitizerNameList := ["original"], frameName := "clean" }

/-- A second previewer named `x`, with the `redbase` frame. -/
def xRedbase : Previewer :=
  { name := "x", description := "", sanitizerNameList := ["original"], frameName := "redbase" }

/-- A page with the one surface `viewer-x`; the previewer array is given by the argument. -/
def sharedSurfacePage (sequence : List Previewer) : Page :=
  { TJPreviewers := sequence
    inputRawHTML := "<b>hi</b>"
    iframes := [("viewer-x", staleIframe)] }

/-- A registry in which the name `dup` is registered twice. -/
def dupRegistry : Sanitizers :=
  { plugins :=
      [ { name := "other", description := "Other", sanitizerMethod := fun str => .ok str },
        { name := "dup", description := "First", sanitizerMethod := fun str => .ok (str ++ "1") },
        { name := "dup", description := "Second",
          sanitizerMethod := fun str => .ok (str ++ "2") } ] }

/-! ## Lemmas on registry lookup -/

/-- In a list whose keys are pairwise distinct, searching for the key of a member finds that
member. -/
theorem find?_key_of_mem {α : Type} (key : α → String) :
    ∀ (l : List α) (p : α), (l.map key).Nodup → p ∈ l →
      l.find? (fun x => key x == key p) = some p
  | [], _, _, hp => by cases hp
  | x :: rest, p, hnd, hp => by
    rw [List.map_cons, List.nodup_cons] at hnd
    rcases List.mem_cons.mp hp with rfl | hmem
    · simp
    · have hne : key x ≠ key p := by
        intro h
        exact hnd.1 (h ▸ List.mem_map_of_mem key hmem)
      have hb : (key x == key p) = false := by simpa using hne
      rw [List.find?_cons, hb]
      exact find?_key_of_mem key rest p hnd.2 hmem

/-- A search by key finds nothing exactly when no member carries the key. -/
theorem find?_key_eq_none {α : Type} (key : α → String) (l : List α) (name : String) :
    l.find? (fun x => key x == name) = none ↔ name ∉ l.map key := by
  rw [List.find?_eq_none]
  simp only [beq_iff_eq, List.mem_map, not_exists, not_and]

/-- What a search by key finds carries the key and is a member. -/
theorem find?_key_some {α : Type} (key : α → String) (l : List α) (name : String) (p : α)
    (h : l.find? (fun x => key x == name) = some p) : key p = name ∧ p ∈ l := by
  have h1 := List.find?_some h
  have h2 := List.mem_of_find?_eq_some h
  exact ⟨by simpa using h1, h2⟩

/-- A call of a sanitizer function never ends in the `TypeError` of a failed lookup. -/
theorem callSanitizer_ne_undefinedProperty (f : String → Except String String) (str prop : String) :
    callSanitizer f str ≠ .error (.undefinedProperty prop) := by
  unfold callSanitizer
  cases f str <;> simp

/-! ## Sanitizer registry: chains -/

/-- C1. For every registry, every input `s` and every list of names `C` whose members all
resolve in the registry (to the plugins `ps`, in the same order), `sanitizeChain(s, C)` is the
left fold over `C` of the resolved plugins' transforms starting from `s`: the output of step
`i` is the input of step `i+1`. -/
theorem sanitizeChain_eq_leftFold (reg : Sanitizers) (s : String) (C : List String)
    (ps : List SanitizerPlugin) (hres : C.map reg.find = ps.map some) :
    reg.sanitizeChain s C = leftFoldTransforms ps s := by
  induction C generalizing ps s with
  | nil =>
    cases ps with
    | nil => rfl
    | cons p rest => simp at hres
  | cons n rest ih =>
    cases ps with
    | nil => simp at hres
    | cons p ps' =>
      simp only [List.map_cons, List.cons.injEq] at hres
      obtain ⟨hn, hrest⟩ := hres
      have hstep : reg.sanitize s n = callSanitizer p.sanitizerMethod s := by
        simp [Sanitizers.sanitize, hn]
      simp only [Sanitizers.sanitizeChain, List.foldlM_cons, hstep, leftFoldTransforms]
      unfold callSanitizer
      cases hp : p.sanitizerMethod s with
      | error message => rfl
      | ok out => exact ih out ps' hrest

/-- C1, concrete instance: with `original` the identity and `upper` upper-casing, the chain
`original, upper` resolves and maps `<p>hi</p>` to `<P>HI</P>`. -/
theorem sanitizeChain_eq_leftFold_witness :
    (["original", "upper"].map upperRegistry.find = upperRegistry.plugins.map some) ∧
    upperRegistry.sanitizeChain "<p>hi</p>" ["original", "upper"]
      = leftFoldTransforms upperRegistry.plugins "<p>hi</p>" ∧
    upperRegistry.sanitizeChain "<p>hi</p>" ["original", "upper"] = .ok "<P>HI</P>" :=
  ⟨rfl,
   sanitizeChain_eq_leftFold upperRegistry "<p>hi</p>" ["original", "upper"]
     upperRegistry.plugins rfl,
   rfl⟩

/-- C2. For every registry, the empty one included, and every input `s`, `sanitizeChain(s, [])`
returns `s` unchanged: the result does not depend on the registry, so no lookup can make it
fail. -/
theorem sanitizeChain_nil :
    (∀ (reg : Sanitizers) (s : String), reg.sanitizeChain s [] = .ok s) ∧
    (∀ s : String, Sanitizers.sanitizeChain { plugins := [] } s [] = .ok s) :=
  ⟨fun _ _ => rfl, fun _ => rfl⟩

/-! ## Registry lookup -/

/-- C3. In a registry whose plugin names are pairwise distinct, looking a registered plugin up
by its name returns that plugin's own fields: `Sanitizers.description` and
`Sanitizers.sanitizerMethod` for a sanitizer plugin `p`, `Frames.description` and
`Frames.injectMethod` for a frame plugin `q`. -/
theorem lookup_returns_registered (reg : Sanitizers) (fr : Frames) (p : SanitizerPlugin)
    (q : FramePlugin)
    (hreg : (reg.plugins.map SanitizerPlugin.name).Nodup)
    (hfr : (fr.plugins.map FramePlugin.name).Nodup)
    (hp : p ∈ reg.plugins) (hq : q ∈ fr.plugins) :
    reg.description p.name = .ok p.description ∧
    reg.sanitizerMethod p.name = .ok p.sanitizerMethod ∧
    fr.description q.name = .ok q.description ∧
    fr.injectMethod q.name = .ok q.injectMethod := by
  have h1 : reg.find p.name = some p :=
    find?_key_of_mem SanitizerPlugin.name reg.plugins p hreg hp
  have h2 : fr.find q.name = some q :=
    find?_key_of_mem FramePlugin.name fr.plugins q hfr hq
  simp [Sanitizers.description, Sanitizers.sanitizerMethod, Frames.description,
    Frames.injectMethod, h1, h2]

/-- C3, concrete instance: the `upper` plugin of the two-plugin registry and the built-in
`redbase` frame. -/
theorem lookup_returns_registered_witness :
    (upperRegistry.plugins.map SanitizerPlugin.name).Nodup ∧
    (TJFrames.plugins.map FramePlugin.name).Nodup ∧
    upperRegistry.description "upper" = .ok "Upper case" ∧
    TJFrames.description "redbase" = .ok "Red base style" :=
  have h := lookup_returns_registered upperRegistry TJFrames
    { name := "upper", description := "Upper case",
      sanitizerMethod := fun str => .ok (String.mk (str.data.map Char.toUpper)) }
    { name := "redbase", description := "Red base style",
      injectMethod := fun iframe str => openWriteClose iframe (redbaseContent str) }
    (by decide) (by decide)
    (List.Mem.tail _ (List.Mem.head _)) (List.Mem.tail _ (List.Mem.head _))
  ⟨by decide, by decide, h.1, h.2.2.1⟩

/-- C4. For every registry and every name, each lookup fails with the `TypeError` of reading a
property of `undefined` (the failure the specification calls `UnknownPlugin`) exactly when the
name is not the name of a registered plugin. The four pure lookups return a value for every
registered name and have no other way to fail; `sanitize` on a registered name can only fail
with an exception thrown by the sanitizer itself. -/
theorem lookup_fails_iff_unregistered (reg : Sanitizers) (fr : Frames) (name str : String) :
    (reg.description name = .error (.undefinedProperty "description")
        ↔ name ∉ reg.plugins.map SanitizerPlugin.name) ∧
    (reg.sanitizerMethod name = .error (.undefinedProperty "sanitizerMethod")
        ↔ name ∉ reg.plugins.map SanitizerPlugin.name) ∧
    (reg.sanitize str name = .error (.undefinedProperty "sanitizerMethod")
        ↔ name ∉ reg.plugins.map SanitizerPlugin.name) ∧
    (fr.description name = .error (.undefinedProperty "description")
        ↔ name ∉ fr.plugins.map FramePlugin.name) ∧
    (fr.injectMethod name = .error (.undefinedProperty "injectMethod")
        ↔ name ∉ fr.plugins.map FramePlugin.name) ∧
    ((∃ v, reg.description name = .ok v) ↔ name ∈ reg.plugins.map SanitizerPlugin.name) ∧
    ((∃ v, reg.sanitizerMethod name = .ok v) ↔ name ∈ reg.plugins.map SanitizerPlugin.name) ∧
    ((∃ v, fr.description name = .ok v) ↔ name ∈ fr.plugins.map FramePlugin.name) ∧
    ((∃ v, fr.injectMethod name = .ok v) ↔ name ∈ fr.plugins.map FramePlugin.name) ∧
    (∀ e, reg.sanitize str name = .error e →
        (e = .undefinedProperty "sanitizerMethod" ∧ name ∉ reg.plugins.map SanitizerPlugin.name)
        ∨ (∃ message, e = .thrown message ∧ name ∈ reg.plugins.map SanitizerPlugin.name)) := by
  have hs := find?_key_eq_none SanitizerPlugin.name reg.plugins name
  have hf := find?_key_eq_none FramePlugin.name fr.plugins name
  cases hfind : reg.find name with
  | none =>
    have hn : name ∉ reg.plugins.map SanitizerPlugin.name := hs.mp hfind
    cases hffind : fr.find name with
    | none =>
      have hm : name ∉ fr.plugins.map FramePlugin.name := hf.mp hffind
      simp [Sanitizers.description, Sanitizers.sanitizerMethod, Sanitizers.sanitize,
        Frames.description, Frames.injectMethod, hfind, hffind, hn, hm]
    | some q =>
      have hm : name ∈ fr.plugins.map FramePlugin.name := by
        by_contra hc
        rw [← hf] at hc
        simp [Frames.find] at hffind
        simp [hffind] at hc
      simp [Sanitizers.description, Sanitizers.sanitizerMethod, Sanitizers.sanitize,
        Frames.description, Frames.injectMethod, hfind, hffind, hn, hm]
  | some p =>
    have hn : name ∈ reg.plugins.map SanitizerPlugin.name := by
      by_contra hc
      rw [← hs] at hc
      simp [Sanitizers.find] at hfind
      simp [hfind] at hc
    have hcall : ∀ e, callSanitizer p.sanitizerMethod str = .error e →
        ∃ message, e = .thrown message := by
      intro e he
      unfold callSanitizer at he
      cases hr : p.sanitizerMethod str with
      | ok out => simp [hr] at he
      | error message =>
        simp [hr] at he
        exact ⟨message, he.symm⟩
    have hne := callSanitizer_ne_undefinedProperty p.sanitizerMethod str "sanitizerMethod"
    cases hffind : fr.find name with
    | none =>
      have hm : name ∉ fr.plugins.map FramePlugin.name := hf.mp hffind
      simp [Sanitizers.description, Sanitizers.sanitizerMethod, Sanitizers.sanitize,
        Frames.description, Frames.injectMethod, hfind, hffind, hn, hm, hne]
      exact hcall
    | some q =>
      have hm : name ∈ fr.plugins.map FramePlugin.name := by
        by_contra hc
        rw [← hf] at hc
        simp [Frames.find] at hffind
        simp [hffind] at hc
      simp [Sanitizers.description, Sanitizers.sanitizerMethod, Sanitizers.sanitize,
        Frames.description, Frames.injectMethod, hfind, hffind, hn, hm, hne]
      exact hcall

/-- C5. For every registry, every name `n` whose lookup `sanitizerMethod(n)` returns a function
`f`, and every string `s`: `sanitize(s, n)` is `f` called once on `s`, and the one-element chain
`sanitizeChain(s, [n])` equals `sanitize(s, n)`. -/
theorem sanitize_eq_call_once (reg : Sanitizers) (s n : String)
    (f : String → Except String String) (hf : reg.sanitizerMethod n = .ok f) :
    reg.sanitize s n = callSanitizer f s ∧
    reg.sanitizeChain s [n] = reg.sanitize s n := by
  constructor
  · unfold Sanitizers.sanitizerMethod at hf
    unfold Sanitizers.sanitize
    cases hfind : reg.find n with
    | none => simp [hfind] at hf
    | some p =>
      simp only [hfind, Except.ok.injEq] at hf
      simp [hf]
  · simp only [Sanitizers.sanitizeChain, List.foldlM_cons, List.foldlM_nil]
    cases reg.sanitize s n <;> rfl

/-- C5, concrete instance: `upper` applied once to `ab` gives `AB`, alone or as a one-element
chain. -/
theorem sanitize_eq_call_once_witness :
    upperRegistry.sanitize "ab" "upper" = .ok "AB" ∧
    upperRegistry.sanitizeChain "ab" ["upper"] = .ok "AB" :=
  have h := sanitize_eq_call_once upperRegistry "ab" "upper"
    (fun str => .ok (String.mk (str.data.map Char.toUpper))) rfl
  ⟨h.1.trans rfl, h.2.trans (h.1.trans rfl)⟩

/-! ## Lemmas on the page state -/

/-- Reading an id in a list where the first iframe with id `id` has been replaced by `w`. -/
theorem find?_setFirst (id id2 : String) (w : Iframe) :
    ∀ l : List (String × Iframe),
      ((setFirst id w l).find? (fun e => e.1 == id2)).map Prod.snd
        = if id2 = id then ((l.find? (fun e => e.1 == id)).map Prod.snd).map (fun _ => w)
          else (l.find? (fun e => e.1 == id2)).map Prod.snd
  | [] => by simp [setFirst]
  | e :: rest => by
    have ih := find?_setFirst id id2 w rest
    by_cases h1 : e.1 = id
    · by_cases h2 : id2 = id
      · subst h2
        simp [setFirst, h1]
      · have h3 : ¬ id = id2 := fun h => h2 h.symm
        have h4 : ¬ e.1 = id2 := fun h => h2 (h.symm.trans h1)
        simp [setFirst, h1, h2, h3, h4, List.find?_cons]
    · by_cases h2 : id2 = id
      · subst h2
        have hb : (e.1 == id2) = false := by simpa using h1
        simpa [setFirst, hb, List.find?_cons] using ih
      · by_cases h4 : e.1 = id2
        · simp [setFirst, h1, h2, h4, List.find?_cons]
        · have hb : (e.1 == id) = false := by simpa using h1
          have hb2 : (e.1 == id2) = false := by simpa using h4
          simpa [setFirst, hb, hb2, h2, List.find?_cons] using ih

/-- Effect of `setElement` on `getElementById`: the element with id `id`, when there is one,
becomes `w`; every other id reads as before. -/
theorem getElementById_setElement (page : Page) (id id2 : String) (w : Iframe) :
    (page.setElement id w).getElementById id2
      = if id2 = id then (page.getElementById id).map (fun _ => w)
        else page.getElementById id2 :=
  find?_setFirst id id2 w page.iframes

/-- Scrolling twice to the same offset is scrolling once. -/
theorem scrollTo_scrollTo (f : Iframe) (x y : Int) :
    (f.scrollTo x y).scrollTo x y = f.scrollTo x y := rfl

/-- The loop of `allScrollTo` over a list `l` of previewers whose surfaces all exist: it ends
normally, and afterwards an id reads as before except for the ids of the members of `l` other
than `sourceIframeId`, whose surface has been scrolled to the given offset. -/
theorem allScrollTo_loop (sourceIframeId : String) (top left : Int) :
    ∀ (l : List Previewer) (page : Page),
      (∀ p ∈ l, (page.getElementById p.iframeId).isSome = true) →
      ∃ page2, l.foldlM (allScrollToStep sourceIframeId top left) page = .ok page2 ∧
        page2.TJPreviewers = page.TJPreviewers ∧
        page2.inputRawHTML = page.inputRawHTML ∧
        ∀ id, page2.getElementById id
          = if id ≠ sourceIframeId ∧ id ∈ l.map Previewer.iframeId
            then (page.getElementById id).map (fun f => f.scrollTo top left)
            else page.getElementById id
  | [], page, _ => ⟨page, rfl, rfl, rfl, fun id => by simp⟩
  | p :: rest, page, hsurf => by
    by_cases hsrc : p.iframeId = sourceIframeId
    · have hrest : ∀ q ∈ rest, (page.getElementById q.iframeId).isSome = true :=
        fun q hq => hsurf q (List.mem_cons_of_mem _ hq)
      obtain ⟨page2, hrun, hT, hI, hget⟩ :=
        allScrollTo_loop sourceIframeId top left rest page hrest
      refine ⟨page2, ?_, hT, hI, ?_⟩
      · simp only [List.foldlM_cons, allScrollToStep, hsrc, beq_self_eq_true, if_true]
        exact hrun
      · intro id
        rw [hget id]
        by_cases hid : id = sourceIframeId
        · simp [hid]
        · have hne : ¬ id = p.iframeId := fun h => hid (h.trans hsrc)
          simp [hid, hne]
    · have hp := hsurf p (List.mem_cons_self _ _)
      obtain ⟨dest, hdest⟩ := Option.isSome_iff_exists.mp hp
      have hrest : ∀ q ∈ rest,
          ((page.setElement p.iframeId (dest.scrollTo top left)).getElementById
            q.iframeId).isSome = true := by
        intro q hq
        rw [getElementById_setElement]
        by_cases hqp : q.iframeId = p.iframeId
        · simp [hqp, hdest]
        · simpa [hqp] using hsurf q (List.mem_cons_of_mem _ hq)
      obtain ⟨page2, hrun, hT, hI, hget⟩ :=
        allScrollTo_loop sourceIframeId top left rest
          (page.setElement p.iframeId (dest.scrollTo top left)) hrest
      refine ⟨page2, ?_, hT, hI, ?_⟩
      · have hb : (p.iframeId == sourceIframeId) = false := by simpa using hsrc
        simp only [List.foldlM_cons, allScrollToStep, hb, hdest]
        exact hrun
      · intro id
        rw [hget id, getElementById_setElement]
        by_cases hid : id = p.iframeId
        · subst hid
          by_cases hin : p.iframeId ∈ rest.map Previewer.iframeId
          · simp [hsrc, hin, hdest, scrollTo_scrollTo]
          · simp [hsrc, hin, hdest]
        · by_cases hs : id = sourceIframeId
          · subst hs
            simp [hid]
          · simp [hid, hs]

/-- Unfolding of `updatePreviewer` once the frame lookup and the chain have returned: what
remains is the call of the inject method on the element found for the previewer's id. -/
theorem updatePreviewer_of_resolved (san : Sanitizers) (fr : Frames) (p : Previewer)
    (page : Page) (sanitized : String)
    (inject : Option Iframe → String → Except JsError Iframe)
    (hchain : san.sanitizeChain page.inputRawHTML p.sanitizerNameList = .ok sanitized)
    (hframe : fr.injectMethod p.frameName = .ok inject) :
    p.updatePreviewer san fr page
      = match inject (page.getElementById p.iframeId) sanitized with
        | .ok written => .ok (page.setElement p.iframeId written)
        | .error e => .error e := by
  have hrender : p.renderSanitizedHTML san (p.getSourceRawHTML page) = .ok sanitized := hchain
  simp only [Previewer.updatePreviewer, hframe, hrender]
  cases inject (page.getElementById p.iframeId) sanitized <;> rfl

/-! ## Refreshing a previewer -/

/-- C6. For every previewer whose chain and frame resolve (the chain yields `sanitized`, the
frame lookup yields `inject`) and whose surface exists, `updatePreviewer` is exactly the call
of `inject` on that surface with `sanitizeChain(source, chain)`: when the injector returns,
the previewer's surface holds what the injector left there, every other surface, the source
text and the previewer array are as before; when the injector throws, so does the refresh. -/
theorem updatePreviewer_chain_then_inject (san : Sanitizers) (fr : Frames) (p : Previewer)
    (page : Page) (sanitized : String)
    (inject : Option Iframe → String → Except JsError Iframe) (target : Iframe)
    (hchain : san.sanitizeChain page.inputRawHTML p.sanitizerNameList = .ok sanitized)
    (hframe : fr.injectMethod p.frameName = .ok inject)
    (htarget : page.getElementById p.iframeId = some target) :
    match inject (some target) sanitized with
    | .ok written =>
      ∃ page2, p.updatePreviewer san fr page = .ok page2 ∧
        page2.getElementById p.iframeId = some written ∧
        (∀ id, id ≠ p.iframeId → page2.getElementById id = page.getElementById id) ∧
        page2.inputRawHTML = page.inputRawHTML ∧
        page2.TJPreviewers = page.TJPreviewers
    | .error e => p.updatePreviewer san fr page = .error e := by
  have hrun := updatePreviewer_of_resolved san fr p page sanitized inject hchain hframe
  rw [htarget] at hrun
  cases hw : inject (some target) sanitized with
  | error e =>
    simp only [hrun, hw]
  | ok written =>
    refine ⟨page.setElement p.iframeId written, ?_, ?_, ?_, rfl, rfl⟩
    · simp only [hrun, hw]
    · rw [getElementById_setElement]
      simp [htarget]
    · intro id hid
      rw [getElementById_setElement]
      simp [hid]

/-- C6, concrete instance: the chain `original, upper` followed by the `redbase` frame replaces
the stale content of `viewer-up` by the wrapped, upper-cased source. -/
theorem updatePreviewer_chain_then_inject_witness :
    ∃ page2, upperRedbase.updatePreviewer upperRegistry TJFrames upperPage = .ok page2 ∧
      page2.getElementById "viewer-up"
        = some { markup := "<html><body style=\"color: red;\"><P>HI</P></body></html>",
                 scrollX := 0, scrollY := 0 } :=
  match updatePreviewer_chain_then_inject upperRegistry TJFrames upperRedbase upperPage
      "<P>HI</P>" (fun iframe str => openWriteClose iframe (redbaseContent str))
      { markup := "stale", scrollX := 0, scrollY := 0 } rfl rfl rfl with
  | ⟨page2, hrun, hsurface, _⟩ => ⟨page2, hrun, hsurface.trans (by decide)⟩

/-- C7. For every source text, refreshing a previewer with chain `original` and frame `clean`
(such as the built-in `ogclean`) on the built-in registries, whatever the external libraries
do, leaves its surface holding exactly the source text. -/
theorem original_clean_shows_source (libs : Libs) (p : Previewer) (page : Page)
    (target : Iframe)
    (hchain : p.sanitizerNameList = ["original"]) (hframe : p.frameName = "clean")
    (htarget : page.getElementById p.iframeId = some target) :
    ∃ page2, p.updatePreviewer (TJSanitizers libs) TJFrames page = .ok page2 ∧
      (page2.getElementById p.iframeId).map Iframe.markup = some page.inputRawHTML := by
  have h1 : (TJSanitizers libs).sanitizeChain page.inputRawHTML p.sanitizerNameList
      = .ok page.inputRawHTML := by
    rw [hchain]
    rfl
  have h2 : TJFrames.injectMethod p.frameName
      = .ok (fun iframe str => openWriteClose iframe str) := by
    rw [hframe]
    rfl
  have hrun := updatePreviewer_of_resolved (TJSanitizers libs) TJFrames p page
    page.inputRawHTML _ h1 h2
  simp only [htarget, openWriteClose] at hrun
  refine ⟨_, hrun, ?_⟩
  rw [getElementById_setElement]
  simp [htarget, Iframe.documentOpen, Iframe.documentWrite, Iframe.documentClose]

/-- C7, concrete instance: `ogclean` is the first configured previewer, and refreshing it with
source `<b>hi</b>` leaves `viewer-ogclean` holding `<b>hi</b>`. -/
theorem original_clean_shows_source_witness :
    previewers.head?.map Previewer.new = some ogclean ∧
    ∃ page2, ogclean.updatePreviewer (TJSanitizers idLibs) TJFrames ogcleanPage = .ok page2 ∧
      (page2.getElementById "viewer-ogclean").map Iframe.markup = some "<b>hi</b>" :=
  ⟨rfl, original_clean_shows_source idLibs ogclean ogcleanPage
    { markup := "stale", scrollX := 0, scrollY := 0 } rfl rfl rfl⟩

/-! ## Frame injection -/

/-- C8. For each built-in frame injector, every existing target and every html string `h`:
the first injection returns a state `once`, and injecting `h` again into `once` returns
`once` again, so the content is not duplicated. -/
theorem inject_twice_eq_once (plugin : FramePlugin) (hplugin : plugin ∈ framePlugins)
    (target : Iframe) (h : String) :
    ∃ once, plugin.injectMethod (some target) h = .ok once ∧
      plugin.injectMethod (some once) h = .ok once := by
  simp only [framePlugins, List.mem_cons, List.mem_singleton, List.not_mem_nil, or_false]
    at hplugin
  rcases hplugin with rfl | rfl | rfl
  · exact ⟨_, rfl, rfl⟩
  · exact ⟨_, rfl, rfl⟩
  · exact ⟨_, rfl, rfl⟩

/-- C8, concrete instance: the `clean` injector applied twice to a surface holding `old`. -/
theorem inject_twice_eq_once_witness :
    ∃ once, openWriteClose (some { markup := "old", scrollX := 3, scrollY := 4 }) "<i>x</i>"
        = .ok once ∧
      openWriteClose (some once) "<i>x</i>" = .ok once ∧ once.markup = "<i>x</i>" :=
  match inject_twice_eq_once
      { name := "clean", description := "Clean iframe",
        injectMethod := fun iframe str => openWriteClose iframe str }
      (List.Mem.head _) { markup := "old", scrollX := 3, scrollY := 4 } "<i>x</i>" with
  | ⟨once, h1, h2⟩ =>
    ⟨once, h1, h2, by
      have h3 : once = { markup := "<i>x</i>", scrollX := 3, scrollY := 4 } :=
        (Except.ok.inj h1).symm
      rw [h3]⟩

/-- C9. For each built-in frame injector and every html string `h`, injecting `h` into two
existing targets, whatever they held before, succeeds on both and leaves them with the same
content. -/
theorem inject_content_independent_of_target (plugin : FramePlugin)
    (hplugin : plugin ∈ framePlugins) (target1 target2 : Iframe) (h : String) :
    ∃ r1 r2, plugin.injectMethod (some target1) h = .ok r1 ∧
      plugin.injectMethod (some target2) h = .ok r2 ∧ r1.markup = r2.markup := by
  simp only [framePlugins, List.mem_cons, List.mem_singleton, List.not_mem_nil, or_false]
    at hplugin
  rcases hplugin with rfl | rfl | rfl
  · exact ⟨_, _, rfl, rfl, rfl⟩
  · exact ⟨_, _, rfl, rfl, rfl⟩
  · exact ⟨_, _, rfl, rfl, rfl⟩

/-- C9, concrete instance: the `redbase` injector on a surface holding `aaa` and on one holding
`bbb`. -/
theorem inject_content_independent_of_target_witness :
    ∃ r1 r2,
      openWriteClose (some { markup := "aaa", scrollX := 0, scrollY := 0 }) (redbaseContent "x")
        = .ok r1 ∧
      openWriteClose (some { markup := "bbb", scrollX := 5, scrollY := 6 }) (redbaseContent "x")
        = .ok r2 ∧
      r1.markup = r2.markup :=
  inject_content_independent_of_target
    { name := "redbase", description := "Red base style",
      injectMethod := fun iframe str => openWriteClose iframe (redbaseContent str) }
    (List.Mem.tail _ (List.Mem.head _))
    { markup := "aaa", scrollX := 0, scrollY := 0 }
    { markup := "bbb", scrollX := 5, scrollY := 6 } "x"

/-! ## Synchronised scrolling -/

/-- C10. For every page on which `initializeSyncScroll` registers its listener (for the id
`leaderId`), whose previewers all have their surface, and whose leader window is at offset
`(x, y)`: the listener is `allScrollTo(leaderId, x, y)`, it ends normally, and afterwards the
surface of every previewer other than the leader has `scrollX = x` and `scrollY = y`. -/
theorem scroll_sync_followers (page : Page) (leaderId : String) (leader : Iframe) (x y : Int)
    (hinit : initializeSyncScroll page = .ok leaderId)
    (hsurf : ∀ p ∈ page.TJPreviewers, (page.getElementById p.iframeId).isSome = true)
    (hleader : page.getElementById leaderId = some leader)
    (hx : leader.scrollX = x) (hy : leader.scrollY = y) :
    scrollListener leaderId page = allScrollTo leaderId x y page ∧
    (page.TJPreviewers.head?.map Previewer.iframeId = some leaderId) ∧
    ∃ page2, scrollListener leaderId page = .ok page2 ∧
      ∀ p ∈ page.TJPreviewers, p.iframeId ≠ leaderId →
        ∃ f, page2.getElementById p.iframeId = some f ∧ f.scrollX = x ∧ f.scrollY = y := by
  have hlistener : scrollListener leaderId page = allScrollTo leaderId x y page := by
    simp only [scrollListener, hleader, hx, hy]
  have hhead : page.TJPreviewers.head?.map Previewer.iframeId = some leaderId := by
    unfold initializeSyncScroll at hinit
    cases hT : page.TJPreviewers with
    | nil => simp [hT] at hinit
    | cons first rest =>
      simp only [hT, List.getElem?_cons_zero] at hinit
      cases hfirst : page.getElementById first.iframeId with
      | none => simp [hfirst] at hinit
      | some f =>
        simp only [hfirst, Except.ok.injEq] at hinit
        simp [hinit]
  obtain ⟨page2, hrun, _, _, hget⟩ := allScrollTo_loop leaderId x y page.TJPreviewers page hsurf
  refine ⟨hlistener, hhead, page2, hlistener.trans hrun, ?_⟩
  intro p hp hne
  obtain ⟨f, hf⟩ := Option.isSome_iff_exists.mp (hsurf p hp)
  refine ⟨f.scrollTo x y, ?_, rfl, rfl⟩
  rw [hget p.iframeId, if_pos ⟨hne, List.mem_map_of_mem _ hp⟩, hf]
  rfl

/-- C10, concrete instance: two previewers, the leader at `(10, 20)`; after the listener has
run the follower's surface is at `(10, 20)`. -/
theorem scroll_sync_followers_witness :
    initializeSyncScroll scrollPage = .ok "viewer-lead" ∧
    ∃ page2, scrollListener "viewer-lead" scrollPage = .ok page2 ∧
      ∃ f, page2.getElementById "viewer-follow" = some f ∧ f.scrollX = 10 ∧ f.scrollY = 20 :=
  match scroll_sync_followers scrollPage "viewer-lead"
      { markup := "", scrollX := 10, scrollY := 20 } 10 20 rfl (by decide) rfl rfl rfl with
  | ⟨_, _, page2, hrun, hall⟩ =>
    ⟨rfl, page2, hrun,
      hall followPreviewer (List.Mem.tail _ (List.Mem.head _)) (by decide)⟩

/-! ## Scroll synchronisation: the leader -/

/-- C11. For every page whose previewers all have their surface, every id `sourceIframeId` and
every offset, `allScrollTo(sourceIframeId, top, left)` ends normally and the surface with id
`sourceIframeId` is afterwards what it was before, scroll offset included; so, when that
surface exists, the sync listener for it ends normally and leaves it as it was. -/
theorem allScrollTo_keeps_leader (page : Page) (sourceIframeId : String) (top left : Int)
    (hsurf : ∀ p ∈ page.TJPreviewers, (page.getElementById p.iframeId).isSome = true) :
    (∃ page2, allScrollTo sourceIframeId top left page = .ok page2 ∧
      page2.getElementById sourceIframeId = page.getElementById sourceIframeId) ∧
    (∀ leader, page.getElementById sourceIframeId = some leader →
      ∃ page3, scrollListener sourceIframeId page = .ok page3 ∧
        page3.getElementById sourceIframeId = some leader) := by
  have hloop : ∀ x y : Int, ∃ page2, allScrollTo sourceIframeId x y page = .ok page2 ∧
      page2.getElementById sourceIframeId = page.getElementById sourceIframeId := by
    intro x y
    obtain ⟨page2, hrun, _, _, hget⟩ :=
      allScrollTo_loop sourceIframeId x y page.TJPreviewers page hsurf
    refine ⟨page2, hrun, ?_⟩
    rw [hget sourceIframeId]
    simp
  refine ⟨hloop top left, ?_⟩
  intro leader hleader
  obtain ⟨page3, hrun, hsame⟩ := hloop leader.scrollX leader.scrollY
  refine ⟨page3, ?_, hsame.trans hleader⟩
  simp only [scrollListener, hleader]
  exact hrun

/-- C11, concrete instance: on the two-previewer page the listener of the leader leaves the
leader's surface at `(10, 20)`, and `allScrollTo` with another offset does not move it. -/
theorem allScrollTo_keeps_leader_witness :
    (∃ page2, allScrollTo "viewer-lead" 7 9 scrollPage = .ok page2 ∧
      page2.getElementById "viewer-lead"
        = some { markup := "", scrollX := 10, scrollY := 20 }) ∧
    (∃ page3, scrollListener "viewer-lead" scrollPage = .ok page3 ∧
      page3.getElementById "viewer-lead"
        = some { markup := "", scrollX := 10, scrollY := 20 }) :=
  have h := allScrollTo_keeps_leader scrollPage "viewer-lead" 7 9 (by decide)
  ⟨h.1, h.2 { markup := "", scrollX := 10, scrollY := 20 } rfl⟩

/-! ## Descriptions -/

/-- The loop of `join` after its first element: each further element is preceded by the
separator. -/
theorem joinLoop_succ (sep : String) :
    ∀ (rest : List String) (e : String) (k : Nat) (R : String),
      joinLoop sep (e :: rest) (k + 1) R = R ++ sep ++ joinedWith sep (e :: rest)
  | [], e, k, R => by simp [joinLoop, joinedWith]
  | e2 :: rest, e, k, R => by
    have ih := joinLoop_succ sep rest e2 (k + 1) (R ++ sep ++ e)
    have hstep : joinLoop sep (e :: e2 :: rest) (k + 1) R
        = joinLoop sep (e2 :: rest) (k + 1 + 1) (R ++ sep ++ e) := by
      simp [joinLoop]
    rw [hstep, ih]
    simp [joinedWith, String.append_assoc]

/-- The loop of `Array.prototype.join` computes the joined string of the specification. -/
theorem jsJoin_eq_joinedWith (sep : String) : ∀ l : List String, jsJoin sep l = joinedWith sep l
  | [] => rfl
  | [d] => by simp [jsJoin, joinLoop, joinedWith]
  | d :: e :: rest => by
    have h := joinLoop_succ sep rest e 0 d
    have hstep : jsJoin sep (d :: e :: rest) = joinLoop sep (e :: rest) (0 + 1) d := by
      simp [jsJoin, joinLoop]
    rw [hstep, h]
    simp [joinedWith]

/-- Mapping `description` over names that all resolve gives the descriptions of the plugins
they resolve to. -/
theorem mapExcept_description (san : Sanitizers) :
    ∀ (names : List String) (ps : List SanitizerPlugin),
      names.map san.find = ps.map some →
      mapExcept (fun sName => san.description sName) names
        = .ok (ps.map SanitizerPlugin.description)
  | [], [], _ => rfl
  | [], _ :: _, h => by simp at h
  | _ :: _, [], h => by simp at h
  | n :: names, p :: ps, h => by
    simp only [List.map_cons, List.cons.injEq] at h
    have ih := mapExcept_description san names ps h.2
    have hd : san.description n = .ok p.description := by
      simp [Sanitizers.description, h.1]
    simp only [mapExcept, hd, ih, List.map_cons]

/-- C16. For every previewer whose chain names resolve to the plugins `ps` and whose frame
name resolves to the plugin `q`, `renderSanitizerChainDescription()` is the descriptions of
`ps`, in chain order, joined by the one separator string of line 287 (a single description is
returned as it is), and `renderFrameDescription()` is the description of `q`. -/
theorem render_descriptions (san : Sanitizers) (fr : Frames) (p : Previewer)
    (ps : List SanitizerPlugin) (q : FramePlugin)
    (hchain : p.sanitizerNameList.map san.find = ps.map some)
    (hframe : fr.find p.frameName = some q) :
    p.renderSanitizerChainDescription san
      = .ok (joinedWith chainSeparator (ps.map SanitizerPlugin.description)) ∧
    (∀ single, ps = [single] → p.renderSanitizerChainDescription san = .ok single.description) ∧
    p.renderFrameDescription fr = .ok q.description := by
  have hjoin : p.renderSanitizerChainDescription san
      = .ok (joinedWith chainSeparator (ps.map SanitizerPlugin.description)) := by
    simp only [Previewer.renderSanitizerChainDescription,
      mapExcept_description san p.sanitizerNameList ps hchain, jsJoin_eq_joinedWith]
  refine ⟨hjoin, ?_, ?_⟩
  · intro single hsingle
    rw [hjoin, hsingle]
    rfl
  · simp [Previewer.renderFrameDescription, Frames.description, hframe]

/-- C16, concrete instance: the built-in previewer `dompurifyTjwhitelistTjcss` is described by
its two sanitizer descriptions around the separator, and by the description of `tjcss`. -/
theorem render_descriptions_witness :
    (Previewer.new
        { name := "dompurifyTjwhitelistTjcss", description := "",
          sanitizers := ["original", "dompurify-tjwhitelist"], frame := "tjcss" }
      ).renderSanitizerChainDescription (TJSanitizers idLibs)
      = .ok ("Original HTML" ++ chainSeparator ++ "DOMPurify (TJ whitelist)") ∧
    (Previewer.new
        { name := "dompurifyTjwhitelistTjcss", description := "",
          sanitizers := ["original", "dompurify-tjwhitelist"], frame := "tjcss" }
      ).renderFrameDescription TJFrames = .ok "TJ CSS (prod)" :=
  have h := render_descriptions (TJSanitizers idLibs) TJFrames
    (Previewer.new
      { name := "dompurifyTjwhitelistTjcss", description := "",
        sanitizers := ["original", "dompurify-tjwhitelist"], frame := "tjcss" })
    [ { name := "original", description := "Original HTML",
        sanitizerMethod := fun str => .ok str },
      { name := "dompurify-tjwhitelist", description := "DOMPurify (TJ whitelist)",
        sanitizerMethod := fun str => idLibs.dompurifySanitize str (some tjWhitelistConfig) } ]
    { name := "tjcss", description := "TJ CSS (prod)",
      injectMethod := fun iframe str => openWriteClose iframe (tjcssContent str) }
    rfl rfl
  ⟨h.1, h.2.2⟩

/-! ## Surface and container ids -/

/-- Two strings with the same text in front are equal exactly when their ends are. -/
theorem append_left_cancel_iff (front a b : String) : front ++ a = front ++ b ↔ a = b := by
  constructor
  · intro h
    have hd := congrArg String.data h
    simp only [String.data_append, List.append_cancel_left_eq] at hd
    exact String.ext hd
  · intro h
    rw [h]

/-- C17. For every previewer, `iframeId()` is `viewer-` followed by the name and
`containerId()` is `previewer-` followed by the name; both depend on the name only and are
injective in it: two previewers have the same surface id, or the same container id, exactly
when they have the same name. A surface id is never a container id. -/
theorem ids_injective (p q : Previewer) :
    p.iframeId = "viewer-" ++ p.name ∧
    p.containerId = "previewer-" ++ p.name ∧
    (p.iframeId = q.iframeId ↔ p.name = q.name) ∧
    (p.containerId = q.containerId ↔ p.name = q.name) ∧
    p.iframeId ≠ q.containerId := by
  refine ⟨rfl, rfl, append_left_cancel_iff _ _ _, append_left_cancel_iff _ _ _, ?_⟩
  intro h
  have hd := congrArg String.data h
  simp [Previewer.iframeId, Previewer.containerId] at hd

/-! ## Lemmas on loops that keep the page -/

/-- Replacing the state of an iframe does not change the ids present. -/
theorem setFirst_map_fst (id : String) (w : Iframe) :
    ∀ l : List (String × Iframe), (setFirst id w l).map Prod.fst = l.map Prod.fst
  | [] => rfl
  | e :: rest => by
    by_cases h : e.1 = id
    · simp [setFirst, h]
    · have hb : (e.1 == id) = false := by simpa using h
      simp [setFirst, hb, setFirst_map_fst id w rest]

/-- An id has an element exactly when it is among the ids of the iframes. -/
theorem getElementById_isSome_iff (page : Page) (id : String) :
    (page.getElementById id).isSome = true ↔ id ∈ page.iframes.map Prod.fst := by
  simp only [Page.getElementById, Option.isSome_map', List.find?_isSome, beq_iff_eq,
    List.mem_map]

/-- A refresh that returns changes only the state of iframes: the previewer array, the source
text, the containers, the diff viewers and the ids of the iframes stay as they were. -/
theorem updatePreviewer_keeps (san : Sanitizers) (fr : Frames) (p : Previewer)
    (page page2 : Page) (h : p.updatePreviewer san fr page = .ok page2) :
    page2.TJPreviewers = page.TJPreviewers ∧ page2.inputRawHTML = page.inputRawHTML ∧
    page2.containers = page.containers ∧ page2.diffViewers = page.diffViewers ∧
    page2.iframes.map Prod.fst = page.iframes.map Prod.fst := by
  unfold Previewer.updatePreviewer at h
  cases hf : fr.injectMethod p.frameName with
  | error e => simp [hf] at h
  | ok inject =>
    cases hr : p.renderSanitizedHTML san (p.getSourceRawHTML page) with
    | error e => simp [hf, hr] at h
    | ok sanitized =>
      cases hw : inject (page.getElementById p.iframeId) sanitized with
      | error e => simp [hf, hr, hw] at h
      | ok written =>
        simp only [hf, hr, hw, Except.ok.injEq] at h
        subst h
        exact ⟨rfl, rfl, rfl, rfl, setFirst_map_fst _ _ _⟩

/-- A loop whose callback keeps a quantity of the page keeps it too, also when it ends with an
exception. -/
theorem forEachKeep_preserves {α β : Type} (f : Page → β)
    (callback : Page → α → Except JsError Page)
    (hstep : ∀ pg a pg2, callback pg a = .ok pg2 → f pg2 = f pg) :
    ∀ (l : List α) (page : Page), f (forEachKeep callback l page).page = f page
  | [], _ => rfl
  | a :: rest, page => by
    cases hc : callback page a with
    | error e => simp [forEachKeep, hc]
    | ok page2 =>
      simp only [forEachKeep, hc]
      rw [forEachKeep_preserves f callback hstep rest page2]
      exact hstep page a page2 hc

/-- A loop over `pre ++ post` runs the loop over `post` from where the loop over `pre` ended,
unless that one threw. -/
theorem forEachKeep_append {α : Type} (callback : Page → α → Except JsError Page) :
    ∀ (pre post : List α) (page : Page),
      forEachKeep callback (pre ++ post) page
        = match (forEachKeep callback pre page).thrown with
          | none => forEachKeep callback post (forEachKeep callback pre page).page
          | some e => { page := (forEachKeep callback pre page).page, thrown := some e }
  | [], _, _ => rfl
  | a :: rest, post, page => by
    cases hc : callback page a with
    | error e => simp [forEachKeep, hc]
    | ok page2 =>
      simp only [List.cons_append, forEachKeep, hc]
      exact forEachKeep_append callback rest post page2

/-- A loop all of whose steps return ends without exception in the state of the fold. -/
theorem forEachKeep_of_foldlM {α : Type} (callback : Page → α → Except JsError Page) :
    ∀ (l : List α) (page page1 : Page), l.foldlM callback page = .ok page1 →
      forEachKeep callback l page = { page := page1, thrown := none }
  | [], page, page1, h => by
    simp only [List.foldlM_nil] at h
    cases h
    rfl
  | a :: rest, page, page1, h => by
    rw [List.foldlM_cons] at h
    cases hc : callback page a with
    | error e =>
      rw [hc] at h
      cases h
    | ok page2 =>
      rw [hc] at h
      simp only [forEachKeep, hc]
      exact forEachKeep_of_foldlM callback rest page2 page1 h

/-- A loop stops at the first element whose callback throws, in the state reached before it. -/
theorem forEachKeep_stops {α : Type} (callback : Page → α → Except JsError Page)
    (pre post : List α) (bad : α) (page page1 : Page) (e : JsError)
    (hpre : pre.foldlM callback page = .ok page1) (hbad : callback page1 bad = .error e) :
    forEachKeep callback (pre ++ bad :: post) page = { page := page1, thrown := some e } := by
  rw [forEachKeep_append, forEachKeep_of_foldlM callback pre page page1 hpre]
  simp [forEachKeep, hbad]

/-- The page that `updatePreviewers` leaves is the page that its refresh loop leaves. -/
theorem updatePreviewers_page (san : Sanitizers) (fr : Frames) (page : Page) :
    (updatePreviewers san fr page).page
      = (forEachKeep (fun pg (p : Previewer) => p.updatePreviewer san fr pg)
          page.TJPreviewers page).page := by
  unfold updatePreviewers
  simp only
  split
  · rfl
  · split <;> rfl

/-- The exception of `updatePreviewers` is that of its refresh loop, or else that of the leader
lookup. -/
theorem updatePreviewers_thrown (san : Sanitizers) (fr : Frames) (page : Page) :
    (updatePreviewers san fr page).thrown
      = match (forEachKeep (fun pg (p : Previewer) => p.updatePreviewer san fr pg)
            page.TJPreviewers page).thrown with
        | some e => some e
        | none =>
          match initializeSyncScroll (forEachKeep (fun pg (p : Previewer) =>
              p.updatePreviewer san fr pg) page.TJPreviewers page).page with
          | .error e => some e
          | .ok _ => none := by
  unfold updatePreviewers
  simp only
  split
  · rfl
  · split <;> rfl

/-- The refresh loop and the leader lookup of `updatePreviewers` leave the previewer array, the
source text, the containers and the ids of the iframes as they were. -/
theorem updatePreviewers_keeps (san : Sanitizers) (fr : Frames) (page : Page) :
    (updatePreviewers san fr page).page.TJPreviewers = page.TJPreviewers ∧
    (updatePreviewers san fr page).page.inputRawHTML = page.inputRawHTML ∧
    (updatePreviewers san fr page).page.containers = page.containers ∧
    (updatePreviewers san fr page).page.iframes.map Prod.fst = page.iframes.map Prod.fst := by
  have hkeep := forEachKeep_preserves
    (fun pg : Page => (pg.TJPreviewers, pg.inputRawHTML, pg.containers,
      pg.iframes.map Prod.fst))
    (fun pg (p : Previewer) => p.updatePreviewer san fr pg)
    (fun pg p pg2 h => by
      obtain ⟨h1, h2, h3, _, h5⟩ := updatePreviewer_keeps san fr p pg pg2 h
      simp only [h1, h2, h3, h5])
    page.TJPreviewers page
  simp only [Prod.mk.injEq] at hkeep
  rw [updatePreviewers_page]
  exact hkeep

/-- A loop stops at the first element whose callback throws, when the elements before it went
through without exception. -/
theorem forEachKeep_stops_of_none {α : Type} (callback : Page → α → Except JsError Page)
    (pre post : List α) (bad : α) (page : Page) (e : JsError)
    (hpre : (forEachKeep callback pre page).thrown = none)
    (hbad : callback (forEachKeep callback pre page).page bad = .error e) :
    forEachKeep callback (pre ++ bad :: post) page
      = { page := (forEachKeep callback pre page).page, thrown := some e } := by
  rw [forEachKeep_append, hpre]
  simp [forEachKeep, hbad]

/-! ## Lemmas on rendering a container -/

/-- Mapping `description` over names of which one is not registered throws the lookup error. -/
theorem mapExcept_description_unregistered (san : Sanitizers) :
    ∀ names : List String, (∃ n ∈ names, n ∉ san.plugins.map SanitizerPlugin.name) →
      mapExcept (fun sName => san.description sName) names
        = .error (.undefinedProperty "description")
  | [], h => by
    obtain ⟨n, hn, _⟩ := h
    cases hn
  | n :: rest, h => by
    cases hfind : san.find n with
    | none =>
      have hd : san.description n = .error (.undefinedProperty "description") := by
        simp [Sanitizers.description, hfind]
      simp only [mapExcept, hd]
    | some p =>
      have hd : san.description n = .ok p.description := by
        simp [Sanitizers.description, hfind]
      have hreg : n ∈ san.plugins.map SanitizerPlugin.name := by
        have := find?_key_some SanitizerPlugin.name san.plugins n p hfind
        exact this.1 ▸ List.mem_map_of_mem _ this.2
      have hrest : ∃ m ∈ rest, m ∉ san.plugins.map SanitizerPlugin.name := by
        obtain ⟨m, hm, hmiss⟩ := h
        rcases List.mem_cons.mp hm with rfl | hm2
        · exact absurd hreg hmiss
        · exact ⟨m, hm2, hmiss⟩
      simp only [mapExcept, hd, mapExcept_description_unregistered san rest hrest]

/-- Mapping `description` over registered names returns. -/
theorem mapExcept_description_registered (san : Sanitizers) :
    ∀ names : List String, (∀ n ∈ names, n ∈ san.plugins.map SanitizerPlugin.name) →
      ∃ ds, mapExcept (fun sName => san.description sName) names = .ok ds
  | [], _ => ⟨[], rfl⟩
  | n :: rest, h => by
    obtain ⟨ds, hds⟩ := mapExcept_description_registered san rest
      (fun m hm => h m (List.mem_cons_of_mem _ hm))
    cases hfind : san.find n with
    | none =>
      have := (find?_key_eq_none SanitizerPlugin.name san.plugins n).mp hfind
      exact absurd (h n (List.mem_cons_self _ _)) this
    | some p =>
      have hd : san.description n = .ok p.description := by
        simp [Sanitizers.description, hfind]
      exact ⟨p.description :: ds, by simp only [mapExcept, hd, hds]⟩

/-- Rendering the container of a previewer one of whose sanitizer names is not registered
throws the lookup error of `description`. -/
theorem renderOutputIframe_unregistered (san : Sanitizers) (fr : Frames) (p : Previewer)
    (h : ∃ n ∈ p.sanitizerNameList, n ∉ san.plugins.map SanitizerPlugin.name) :
    p.renderOutputIframe san fr = .error (.undefinedProperty "description") := by
  simp only [Previewer.renderOutputIframe, Previewer.renderSanitizerChainDescription,
    mapExcept_description_unregistered san p.sanitizerNameList h]

/-- Rendering the container of a previewer whose names are all registered returns. -/
theorem renderOutputIframe_registered (san : Sanitizers) (fr : Frames) (p : Previewer)
    (hs : ∀ n ∈ p.sanitizerNameList, n ∈ san.plugins.map SanitizerPlugin.name)
    (hf : p.frameName ∈ fr.plugins.map FramePlugin.name) :
    ∃ html, p.renderOutputIframe san fr = .ok html := by
  obtain ⟨ds, hds⟩ := mapExcept_description_registered san p.sanitizerNameList hs
  cases hfind : fr.find p.frameName with
  | none =>
    exact absurd hf ((find?_key_eq_none FramePlugin.name fr.plugins p.frameName).mp hfind)
  | some q =>
    refine ⟨outputIframeTemplate p.containerId p.name (jsJoin chainSeparator ds) q.description
      p.iframeId, ?_⟩
    simp only [Previewer.renderOutputIframe, Previewer.renderSanitizerChainDescription, hds,
      Previewer.renderFrameDescription, Frames.description, hfind]

/-- The creation loop of `initialize` over configurations that all render: it ends without
exception, having added one previewer, one container and one iframe per configuration, in
order, after those the page had. -/
theorem initializeLoop_ok (san : Sanitizers) (fr : Frames) :
    ∀ (configs : List PreviewerConfig) (page : Page),
      (∀ c ∈ configs, ∃ html, (Previewer.new c).renderOutputIframe san fr = .ok html) →
      (forEachKeep (initializeStep san fr) configs page).thrown = none ∧
      (forEachKeep (initializeStep san fr) configs page).page.TJPreviewers
        = page.TJPreviewers ++ configs.map Previewer.new ∧
      (forEachKeep (initializeStep san fr) configs page).page.containers.map Container.id
        = page.containers.map Container.id
          ++ configs.map (fun c => (Previewer.new c).containerId) ∧
      (forEachKeep (initializeStep san fr) configs page).page.iframes.map Prod.fst
        = page.iframes.map Prod.fst ++ configs.map (fun c => (Previewer.new c).iframeId) ∧
      (forEachKeep (initializeStep san fr) configs page).page.inputRawHTML
        = page.inputRawHTML
  | [], page, _ => by simp [forEachKeep]
  | c :: rest, page, h => by
    obtain ⟨html, hhtml⟩ := h c (List.mem_cons_self _ _)
    have ih := initializeLoop_ok san fr rest
      { (page.appendPreviewerHTML (Previewer.new c).containerId (Previewer.new c).iframeId
          html) with TJPreviewers := page.TJPreviewers ++ [Previewer.new c] }
      (fun d hd => h d (List.mem_cons_of_mem _ hd))
    have hstep : initializeStep san fr page c
        = .ok { (page.appendPreviewerHTML (Previewer.new c).containerId
            (Previewer.new c).iframeId html) with
            TJPreviewers := page.TJPreviewers ++ [Previewer.new c] } := by
      simp only [initializeStep, hhtml]
      rfl
    simp only [forEachKeep, hstep]
    obtain ⟨h1, h2, h3, h4, h5⟩ := ih
    refine ⟨h1, ?_, ?_, ?_, ?_⟩
    · rw [h2]
      simp
    · rw [h3]
      simp [Page.appendPreviewerHTML]
    · rw [h4]
      simp [Page.appendPreviewerHTML, Function.comp_def]
    · rw [h5]
      rfl

/-- Every entry of the built-in configuration renders on the built-in registries, whatever the
external libraries do. -/
theorem previewers_render (libs : Libs) :
    ∀ c ∈ previewers, ∃ html,
      (Previewer.new c).renderOutputIframe (TJSanitizers libs) TJFrames = .ok html := by
  intro c hc
  simp only [previewers, List.mem_cons, List.mem_singleton, List.not_mem_nil, or_false] at hc
  rcases hc with rfl | rfl | rfl | rfl | rfl <;> exact ⟨_, rfl⟩

/-- On the built-in registries and configuration, `initialize()` adds the configured
previewers after those the array held, and leaves exactly their iframes on the page. -/
theorem initializeWorkbench_builtin (libs : Libs) (page : Page) :
    (initializeWorkbench (TJSanitizers libs) TJFrames previewers page).page.TJPreviewers
      = page.TJPreviewers ++ previewers.map Previewer.new ∧
    (initializeWorkbench (TJSanitizers libs) TJFrames previewers page).page.iframes.map Prod.fst
      = previewers.map (fun c => (Previewer.new c).iframeId) := by
  obtain ⟨h1, h2, _, h4, _⟩ := initializeLoop_ok (TJSanitizers libs) TJFrames previewers
    page.clearPreviewArea (previewers_render libs)
  obtain ⟨k1, _, _, k4⟩ := updatePreviewers_keeps (TJSanitizers libs) TJFrames
    (forEachKeep (initializeStep (TJSanitizers libs) TJFrames) previewers
      page.clearPreviewArea).page
  have hrun : initializeWorkbench (TJSanitizers libs) TJFrames previewers page
      = updatePreviewers (TJSanitizers libs) TJFrames
          (forEachKeep (initializeStep (TJSanitizers libs) TJFrames) previewers
            page.clearPreviewArea).page := by
    simp only [initializeWorkbench, h1]
  rw [hrun, k1, k4, h2, h4]
  exact ⟨rfl, rfl⟩

/-- A refresh that returns leaves every surface with another id as it was. -/
theorem updatePreviewer_other (san : Sanitizers) (fr : Frames) (p : Previewer)
    (page page2 : Page) (h : p.updatePreviewer san fr page = .ok page2) (id : String)
    (hid : id ≠ p.iframeId) : page2.getElementById id = page.getElementById id := by
  unfold Previewer.updatePreviewer at h
  cases hf : fr.injectMethod p.frameName with
  | error e => simp [hf] at h
  | ok inject =>
    cases hr : p.renderSanitizedHTML san (p.getSourceRawHTML page) with
    | error e => simp [hf, hr] at h
    | ok sanitized =>
      cases hw : inject (page.getElementById p.iframeId) sanitized with
      | error e => simp [hf, hr, hw] at h
      | ok written =>
        simp only [hf, hr, hw, Except.ok.injEq] at h
        subst h
        rw [getElementById_setElement]
        simp [hid]

/-- Refreshing a list of previewers one after the other leaves the surfaces of all other ids
as they were. -/
theorem foldlM_updatePreviewer_other (san : Sanitizers) (fr : Frames) :
    ∀ (l : List Previewer) (page page1 : Page),
      l.foldlM (fun pg p => p.updatePreviewer san fr pg) page = .ok page1 →
      ∀ id, id ∉ l.map Previewer.iframeId → page1.getElementById id = page.getElementById id
  | [], page, page1, h, _, _ => by
    simp only [List.foldlM_nil] at h
    cases h
    rfl
  | p :: rest, page, page1, h, id, hid => by
    rw [List.foldlM_cons] at h
    cases hc : p.updatePreviewer san fr page with
    | error e =>
      rw [hc] at h
      cases h
    | ok page2 =>
      rw [hc] at h
      simp only [List.map_cons, List.mem_cons, not_or] at hid
      rw [foldlM_updatePreviewer_other san fr rest page2 page1 h id hid.2]
      exact updatePreviewer_other san fr p page page2 hc id hid.1

/-- The refresh loop goes through without exception when every previewer has its surface, its
chain returns on the source text, and its frame resolves to an injector that returns on
existing targets. -/
theorem refreshLoop_no_throw (san : Sanitizers) (fr : Frames) :
    ∀ (l : List Previewer) (page : Page),
      (∀ p ∈ l, p.iframeId ∈ page.iframes.map Prod.fst ∧
        (∃ html, san.sanitizeChain page.inputRawHTML p.sanitizerNameList = .ok html) ∧
        (∃ inject, fr.injectMethod p.frameName = .ok inject ∧
          ∀ t s, ∃ w, inject (some t) s = .ok w)) →
      (forEachKeep (fun pg (p : Previewer) => p.updatePreviewer san fr pg) l page).thrown = none
  | [], _, _ => rfl
  | p :: rest, page, h => by
    obtain ⟨hsurf, ⟨html, hhtml⟩, inject, hinject, htotal⟩ := h p (List.mem_cons_self _ _)
    obtain ⟨target, htarget⟩ :=
      Option.isSome_iff_exists.mp ((getElementById_isSome_iff page p.iframeId).mpr hsurf)
    obtain ⟨w, hw⟩ := htotal target html
    have hrun := updatePreviewer_of_resolved san fr p page html inject hhtml hinject
    simp only [htarget, hw] at hrun
    simp only [forEachKeep, hrun]
    apply refreshLoop_no_throw san fr rest
    intro q hq
    obtain ⟨qsurf, qchain, qinject⟩ := h q (List.mem_cons_of_mem _ hq)
    refine ⟨?_, qchain, qinject⟩
    simp only [Page.setElement, setFirst_map_fst]
    exact qsurf

/-- A chain of two names whose steps return is the second step applied to the output of the
first. -/
theorem sanitizeChain_pair (reg : Sanitizers) (s mid out a b : String)
    (h1 : reg.sanitize s a = .ok mid) (h2 : reg.sanitize mid b = .ok out) :
    reg.sanitizeChain s [a, b] = .ok out := by
  simp only [Sanitizers.sanitizeChain, List.foldlM_cons, List.foldlM_nil, h1]
  show (reg.sanitize mid b >>= fun x => pure x) = Except.ok out
  rw [h2]
  rfl

/-- On the built-in sanitizer registry every configured chain returns on every source text when
the two external libraries return. -/
theorem previewers_chain_ok (libs : Libs)
    (htiny : ∀ s, ∃ r, libs.tinymceWordPasteFilter s = .ok r)
    (hdom : ∀ s c, ∃ r, libs.dompurifySanitize s c = .ok r) (s : String) :
    ∀ c ∈ previewers, ∃ html, (TJSanitizers libs).sanitizeChain s c.sanitizers = .ok html := by
  intro c hc
  obtain ⟨r1, hr1⟩ := htiny s
  obtain ⟨r2, hr2⟩ := hdom s none
  obtain ⟨r3, hr3⟩ := hdom s (some tjWhitelistConfig)
  simp only [previewers, List.mem_cons, List.mem_singleton, List.not_mem_nil, or_false] at hc
  rcases hc with rfl | rfl | rfl | rfl | rfl
  · exact ⟨s, rfl⟩
  · have hcall : callSanitizer (fun str => libs.dompurifySanitize str (some tjWhitelistConfig)) s = .ok r3 := by
      simp [callSanitizer, hr3]
    have hstep : (TJSanitizers libs).sanitize s "dompurify-tjwhitelist"
        = callSanitizer (fun str => libs.dompurifySanitize str (some tjWhitelistConfig)) s := rfl
    exact ⟨r3, sanitizeChain_pair _ s s r3 "original" "dompurify-tjwhitelist" rfl (hstep.trans hcall)⟩
  · have hcall : callSanitizer (fun str => libs.tinymceWordPasteFilter str) s = .ok r1 := by
      simp [callSanitizer, hr1]
    have hstep : (TJSanitizers libs).sanitize s "tinymce"
        = callSanitizer (fun str => libs.tinymceWordPasteFilter str) s := rfl
    exact ⟨r1, sanitizeChain_pair _ s s r1 "original" "tinymce" rfl (hstep.trans hcall)⟩
  · have hcall : callSanitizer (fun str => libs.dompurifySanitize str none) s = .ok r2 := by
      simp [callSanitizer, hr2]
    have hstep : (TJSanitizers libs).sanitize s "dompurify"
        = callSanitizer (fun str => libs.dompurifySanitize str none) s := rfl
    exact ⟨r2, sanitizeChain_pair _ s s r2 "original" "dompurify" rfl (hstep.trans hcall)⟩
  · have hcall : callSanitizer (fun str => libs.dompurifySanitize str (some tjWhitelistConfig)) s = .ok r3 := by
      simp [callSanitizer, hr3]
    have hstep : (TJSanitizers libs).sanitize s "dompurify-tjwhitelist"
        = callSanitizer (fun str => libs.dompurifySanitize str (some tjWhitelistConfig)) s := rfl
    exact ⟨r3, sanitizeChain_pair _ s s r3 "original" "dompurify-tjwhitelist" rfl (hstep.trans hcall)⟩

/-- Every configured frame resolves on the built-in frame registry to an injector that returns
on existing targets. -/
theorem previewers_frame_ok :
    ∀ c ∈ previewers, ∃ inject, TJFrames.injectMethod c.frame = .ok inject ∧
      ∀ (t : Iframe) (s : String), ∃ w, inject (some t) s = .ok w := by
  intro c hc
  simp only [previewers, List.mem_cons, List.mem_singleton, List.not_mem_nil, or_false] at hc
  rcases hc with rfl | rfl | rfl | rfl | rfl <;>
    exact ⟨_, rfl, fun _ _ => ⟨_, rfl⟩⟩

/-! ## Initialisation -/

/-- C12. Starting from a workbench whose previewer array is empty, after `initialize()` on the
built-in registries and configuration the array `TJPreviewers` is the configuration mapped
through the `Previewer` constructor: one previewer per entry, in configuration order, each
with that entry's name, description, sanitizer chain and frame. The leader that
`initializeSyncScroll` picks on the resulting page is the first of them, and the call ends
without exception when the two external libraries return. -/
theorem initialize_builds_previewers (libs : Libs) (page : Page)
    (hempty : page.TJPreviewers = []) :
    (initializeWorkbench (TJSanitizers libs) TJFrames previewers page).page.TJPreviewers
      = previewers.map Previewer.new ∧
    List.Forall₂
      (fun (c : PreviewerConfig) (p : Previewer) =>
        p.name = c.name ∧ p.description = c.description ∧
        p.sanitizerNameList = c.sanitizers ∧ p.frameName = c.frame)
      previewers
      (initializeWorkbench (TJSanitizers libs) TJFrames previewers page).page.TJPreviewers ∧
    (∃ leader,
      (initializeWorkbench (TJSanitizers libs) TJFrames previewers page).page.TJPreviewers.head?
        = some leader ∧
      initializeSyncScroll (initializeWorkbench (TJSanitizers libs) TJFrames previewers page).page
        = .ok leader.iframeId) ∧
    ((∀ s, ∃ r, libs.tinymceWordPasteFilter s = .ok r) →
      (∀ s c, ∃ r, libs.dompurifySanitize s c = .ok r) →
      (initializeWorkbench (TJSanitizers libs) TJFrames previewers page).thrown = none) := by
  obtain ⟨hT, hI⟩ := initializeWorkbench_builtin libs page
  rw [hempty, List.nil_append] at hT
  have hleaderSurface :
      ((initializeWorkbench (TJSanitizers libs) TJFrames previewers page).page.getElementById
        "viewer-ogclean").isSome = true := by
    rw [getElementById_isSome_iff, hI]
    decide
  have hsync :
      initializeSyncScroll (initializeWorkbench (TJSanitizers libs) TJFrames previewers page).page
        = .ok "viewer-ogclean" := by
    obtain ⟨f, hf⟩ := Option.isSome_iff_exists.mp hleaderSurface
    have h0 : (initializeWorkbench (TJSanitizers libs) TJFrames previewers
        page).page.TJPreviewers[0]? = some ogclean := by
      rw [hT]
      rfl
    have hf2 : (initializeWorkbench (TJSanitizers libs) TJFrames previewers
        page).page.getElementById ogclean.iframeId = some f := hf
    simp only [initializeSyncScroll, h0, hf2]
    rfl
  refine ⟨hT, ?_, ⟨ogclean, ?_, hsync⟩, ?_⟩
  · rw [hT]
    simp [previewers, Previewer.new]
  · rw [hT]
    rfl
  · intro htiny hdom
    obtain ⟨h1, h2, _, h4, h5⟩ := initializeLoop_ok (TJSanitizers libs) TJFrames previewers
      page.clearPreviewArea (previewers_render libs)
    have hloop := refreshLoop_no_throw (TJSanitizers libs) TJFrames
      (forEachKeep (initializeStep (TJSanitizers libs) TJFrames) previewers
        page.clearPreviewArea).page.TJPreviewers
      (forEachKeep (initializeStep (TJSanitizers libs) TJFrames) previewers
        page.clearPreviewArea).page
      (by
        intro p hp
        rw [h2] at hp
        have hp2 : p ∈ previewers.map Previewer.new := by
          simpa [Page.clearPreviewArea, hempty] using hp
        obtain ⟨c, hc, rfl⟩ := List.mem_map.mp hp2
        refine ⟨?_, previewers_chain_ok libs htiny hdom _ c hc, previewers_frame_ok c hc⟩
        rw [h4]
        exact List.mem_append_right _ (List.mem_map_of_mem _ hc))
    have hkeep := forEachKeep_preserves
      (fun pg : Page => (pg.TJPreviewers, pg.iframes.map Prod.fst))
      (fun pg (p : Previewer) => p.updatePreviewer (TJSanitizers libs) TJFrames pg)
      (fun pg p pg2 h => by
        obtain ⟨k1, _, _, _, k5⟩ := updatePreviewer_keeps (TJSanitizers libs) TJFrames p pg pg2 h
        simp only [k1, k5])
      (forEachKeep (initializeStep (TJSanitizers libs) TJFrames) previewers
        page.clearPreviewArea).page.TJPreviewers
      (forEachKeep (initializeStep (TJSanitizers libs) TJFrames) previewers
        page.clearPreviewArea).page
    have hrun : initializeWorkbench (TJSanitizers libs) TJFrames previewers page
        = updatePreviewers (TJSanitizers libs) TJFrames
            (forEachKeep (initializeStep (TJSanitizers libs) TJFrames) previewers
              page.clearPreviewArea).page := by
      simp only [initializeWorkbench, h1]
    have hsync2 := hsync
    rw [hrun, updatePreviewers_page] at hsync2
    rw [hrun, updatePreviewers_thrown, hloop]
    simp only [hsync2]

/-- C12, concrete instance: from the empty workbench, with libraries that return their input,
`initialize()` ends without exception with the five configured previewers, `ogclean` first,
and the leader is `viewer-ogclean`. -/
theorem initialize_builds_previewers_witness :
    (initializeWorkbench (TJSanitizers idLibs) TJFrames previewers emptyWorkbench).thrown
      = none ∧
    (initializeWorkbench (TJSanitizers idLibs) TJFrames previewers
      emptyWorkbench).page.TJPreviewers.map Previewer.name
      = ["ogclean", "dompurifyTjwhitelistTjcss", "tinymceTjcss", "dompurifyTjcss",
         "dompurifyTjwhitelist"] ∧
    initializeSyncScroll
      (initializeWorkbench (TJSanitizers idLibs) TJFrames previewers emptyWorkbench).page
      = .ok "viewer-ogclean" :=
  have h := initialize_builds_previewers idLibs emptyWorkbench rfl
  ⟨h.2.2.2 (fun s => ⟨s, rfl⟩) (fun s _ => ⟨s, rfl⟩),
   by rw [h.1]; rfl,
   by
    obtain ⟨leader, hhead, hsync⟩ := h.2.2.1
    rw [h.1] at hhead
    have hl : leader = ogclean := (Option.some.inj hhead).symm
    rw [hsync, hl]
    rfl⟩

/-- C13, evaluated. `initialize()` never empties `TJPreviewers`: on the built-in registries and
configuration, after `k` calls the array holds what it held before followed by `k` copies of
the five configured previewers; two calls from the empty workbench leave ten entries for a
configuration of five. -/
theorem initialize_accumulates_previewers :
    (∀ (libs : Libs) (k : Nat) (page : Page),
      (initializeTimes (TJSanitizers libs) TJFrames previewers k page).TJPreviewers.length
        = page.TJPreviewers.length + k * previewers.length) ∧
    previewers.length = 5 ∧
    (initializeTimes (TJSanitizers idLibs) TJFrames previewers 1
      emptyWorkbench).TJPreviewers.length = 5 ∧
    (initializeTimes (TJSanitizers idLibs) TJFrames previewers 2
      emptyWorkbench).TJPreviewers.length = 10 := by
  have hgen : ∀ (libs : Libs) (k : Nat) (page : Page),
      (initializeTimes (TJSanitizers libs) TJFrames previewers k page).TJPreviewers.length
        = page.TJPreviewers.length + k * previewers.length := by
    intro libs k page
    induction k with
    | zero => simp [initializeTimes]
    | succ k ih =>
      simp only [initializeTimes]
      rw [(initializeWorkbench_builtin libs _).1, List.length_append, ih, List.length_map]
      ring
  refine ⟨hgen, rfl, ?_, ?_⟩
  · rw [hgen]
    rfl
  · rw [hgen]
    rfl

/-! ## Failures during bulk refresh and initialisation -/

/-- C14, counterexample. On a page whose first previewer names an unregistered sanitizer and
whose second previewer is `ogclean`, `updatePreviewers` ends with the exception of the first
refresh, and the surface of `ogclean` still holds its stale content, although the refresh of
`ogclean` alone on that page returns and writes the source text. -/
theorem updatePreviewers_sibling_not_refreshed :
    (updatePreviewers (TJSanitizers idLibs) TJFrames brokenFirstPage).thrown
      = some (.undefinedProperty "sanitizerMethod") ∧
    (updatePreviewers (TJSanitizers idLibs) TJFrames brokenFirstPage).page.getElementById
      "viewer-ogclean" = some staleIframe ∧
    (∃ page2, ogclean.updatePreviewer (TJSanitizers idLibs) TJFrames brokenFirstPage
        = .ok page2 ∧
      page2.getElementById "viewer-ogclean"
        = some { markup := "<b>hi</b>", scrollX := 0, scrollY := 0 }) :=
  ⟨rfl, rfl, _, rfl, rfl⟩

/-- C14, amended. When the previewer array is `pre ++ bad :: post`, the refreshes of `pre` go
through one after the other and reach `page1`, and the refresh of `bad` throws `e` there, then
`updatePreviewers` stops at `bad`: it ends with the exception `e` in the state `page1`, so no
previewer of `post` is refreshed, and a surface of `post` that no previewer of `pre` writes to
is as it was before the call. -/
theorem updatePreviewers_stops_at_failure (san : Sanitizers) (fr : Frames)
    (page page1 : Page) (pre post : List Previewer) (bad : Previewer) (e : JsError)
    (hseq : page.TJPreviewers = pre ++ bad :: post)
    (hpre : pre.foldlM (fun pg p => p.updatePreviewer san fr pg) page = .ok page1)
    (hbad : bad.updatePreviewer san fr page1 = .error e) :
    updatePreviewers san fr page = { page := page1, thrown := some e } ∧
    ∀ q ∈ post, q.iframeId ∉ pre.map Previewer.iframeId →
      page1.getElementById q.iframeId = page.getElementById q.iframeId := by
  constructor
  · have hloop := forEachKeep_stops (fun pg (p : Previewer) => p.updatePreviewer san fr pg)
      pre post bad page page1 e hpre hbad
    unfold updatePreviewers
    simp only [hseq, hloop]
  · intro q _ hq
    exact foldlM_updatePreviewer_other san fr pre page page1 hpre q.iframeId hq

/-- C14, concrete instance of the amended statement: with `ogclean` first, the broken
previewer second and `lead` third, the call ends with the lookup error; `ogclean` has been
refreshed and the surface of `lead` is still stale. -/
theorem updatePreviewers_stops_at_failure_witness :
    (updatePreviewers (TJSanitizers idLibs) TJFrames brokenSecondPage).thrown
      = some (.undefinedProperty "sanitizerMethod") ∧
    (updatePreviewers (TJSanitizers idLibs) TJFrames brokenSecondPage).page.getElementById
      "viewer-ogclean" = some { markup := "<b>hi</b>", scrollX := 0, scrollY := 0 } ∧
    (updatePreviewers (TJSanitizers idLibs) TJFrames brokenSecondPage).page.getElementById
      "viewer-lead" = some staleIframe :=
  have h := updatePreviewers_stops_at_failure (TJSanitizers idLibs) TJFrames brokenSecondPage
    { brokenSecondPage with
      iframes :=
        [("viewer-ogclean", { markup := "<b>hi</b>", scrollX := 0, scrollY := 0 }),
         ("viewer-broken", staleIframe), ("viewer-lead", staleIframe)] }
    [ogclean] [leadPreviewer] brokenPreviewer (.undefinedProperty "sanitizerMethod")
    rfl rfl rfl
  ⟨by rw [h.1], by rw [h.1]; rfl,
   by
    rw [h.1]
    exact (h.2 leadPreviewer (List.Mem.head _) (by decide)).trans rfl⟩

/-- C15, counterexample. With the configuration `ogclean, broken`, whose second entry names an
unregistered sanitizer, `initialize()` ends with the lookup error, and at that moment the
container of `ogclean` has been rendered into the preview area and the previewer `ogclean`
has been added to the previewer array. -/
theorem initialize_partial_on_failure :
    (initializeWorkbench (TJSanitizers idLibs) TJFrames [ogcleanConfig, brokenConfig]
      emptyWorkbench).thrown = some (.undefinedProperty "description") ∧
    (initializeWorkbench (TJSanitizers idLibs) TJFrames [ogcleanConfig, brokenConfig]
      emptyWorkbench).page.containers.map Container.id = ["previewer-ogclean"] ∧
    (initializeWorkbench (TJSanitizers idLibs) TJFrames [ogcleanConfig, brokenConfig]
      emptyWorkbench).page.TJPreviewers = [ogclean] :=
  ⟨rfl, rfl, rfl⟩

/-- C15, amended. For every configuration list `pre ++ bad :: post` in which the entries of
`pre` name registered sanitizers and frames only and `bad` names a sanitizer that is not
registered, `initialize()` ends with the lookup error of `description`; at that moment the
preview area holds the containers and iframes of the entries of `pre`, in order, and nothing
else, and the previewers of `pre`, and no other, have been added to the previewer array. When
`bad` is the first entry, nothing has been rendered or added. -/
theorem initialize_stops_at_unregistered (san : Sanitizers) (fr : Frames)
    (pre post : List PreviewerConfig) (bad : PreviewerConfig) (page : Page)
    (hpre : ∀ c ∈ pre, (∀ n ∈ c.sanitizers, n ∈ san.plugins.map SanitizerPlugin.name) ∧
      c.frame ∈ fr.plugins.map FramePlugin.name)
    (hbad : ∃ n ∈ bad.sanitizers, n ∉ san.plugins.map SanitizerPlugin.name) :
    (initializeWorkbench san fr (pre ++ bad :: post) page).thrown
      = some (.undefinedProperty "description") ∧
    (initializeWorkbench san fr (pre ++ bad :: post) page).page.TJPreviewers
      = page.TJPreviewers ++ pre.map Previewer.new ∧
    (initializeWorkbench san fr (pre ++ bad :: post) page).page.containers.map Container.id
      = pre.map (fun c => "previewer-" ++ c.name) ∧
    (initializeWorkbench san fr (pre ++ bad :: post) page).page.iframes.map Prod.fst
      = pre.map (fun c => "viewer-" ++ c.name) := by
  have hrender : ∀ c ∈ pre, ∃ html, (Previewer.new c).renderOutputIframe san fr = .ok html :=
    fun c hc => renderOutputIframe_registered san fr (Previewer.new c) (hpre c hc).1
      (hpre c hc).2
  obtain ⟨h1, h2, h3, h4, _⟩ := initializeLoop_ok san fr pre page.clearPreviewArea hrender
  have hstep : initializeStep san fr
      (forEachKeep (initializeStep san fr) pre page.clearPreviewArea).page bad
      = .error (.undefinedProperty "description") := by
    simp only [initializeStep, renderOutputIframe_unregistered san fr (Previewer.new bad) hbad]
  have hloop := forEachKeep_stops_of_none (initializeStep san fr) pre post bad
    page.clearPreviewArea (.undefinedProperty "description") h1 hstep
  have hrun : initializeWorkbench san fr (pre ++ bad :: post) page
      = { page := (forEachKeep (initializeStep san fr) pre page.clearPreviewArea).page,
          thrown := some (.undefinedProperty "description") } := by
    simp only [initializeWorkbench, hloop]
  rw [hrun]
  refine ⟨rfl, ?_, ?_, ?_⟩
  · exact h2
  · rw [h3]
    rfl
  · rw [h4]
    rfl

/-- C15, concrete instance of the amended statement: the configuration `ogclean, broken,
ogclean` on the built-in registries. -/
theorem initialize_stops_at_unregistered_witness :
    (initializeWorkbench (TJSanitizers idLibs) TJFrames
      [ogcleanConfig, brokenConfig, ogcleanConfig] emptyWorkbench).thrown
      = some (.undefinedProperty "description") ∧
    (initializeWorkbench (TJSanitizers idLibs) TJFrames
      [ogcleanConfig, brokenConfig, ogcleanConfig] emptyWorkbench).page.TJPreviewers
      = [ogclean] ∧
    (initializeWorkbench (TJSanitizers idLibs) TJFrames
      [ogcleanConfig, brokenConfig, ogcleanConfig] emptyWorkbench).page.containers.map
      Container.id = ["previewer-ogclean"] :=
  have h := initialize_stops_at_unregistered (TJSanitizers idLibs) TJFrames
    [ogcleanConfig] [ogcleanConfig] brokenConfig emptyWorkbench
    (by decide) (by decide)
  ⟨h.1, h.2.1, h.2.2.1⟩

/-! ## Layout toggles -/

/-- Replacing the first container with id `c.id` in a list where `c` is that container. -/
theorem setFirstContainer_split (c d : Container) (post : List Container) :
    ∀ pre : List Container, (∀ x ∈ pre, x.id ≠ c.id) →
      setFirstContainer c.id d (pre ++ c :: post) = pre ++ d :: post ∧
      (pre ++ c :: post).find? (fun x => x.id == c.id) = some c
  | [], _ => by simp [setFirstContainer]
  | x :: pre, h => by
    have hx : (x.id == c.id) = false := by simpa using h x (List.mem_cons_self _ _)
    obtain ⟨h1, h2⟩ := setFirstContainer_split c d post pre
      (fun y hy => h y (List.mem_cons_of_mem _ hy))
    simp [setFirstContainer, hx, h1, h2]

/-- C18. For every page whose containers are `pre ++ c :: post`, with `c` the first container
of its id, and every class name `f` (so for each of maximize, pinLeft, pinRight, overlay,
fullscreen): `toggle(c.id, f)` returns, the containers are then `pre ++ c2 :: post` with `c2`
in the place of `c`, the flag `f` is on `c2` exactly when it was not on `c`, every other flag
is on `c2` exactly when it was on `c`, and nothing else of the page has changed. -/
theorem toggle_flips_one_flag (page : Page) (pre post : List Container) (c : Container)
    (f : String) (hsplit : page.containers = pre ++ c :: post)
    (hfirst : ∀ x ∈ pre, x.id ≠ c.id) :
    ∃ c2, toggle c.id f page = .ok { page with containers := pre ++ c2 :: post } ∧
      c2.id = c.id ∧
      (f ∈ c2.classList ↔ f ∉ c.classList) ∧
      ∀ g, g ≠ f → (g ∈ c2.classList ↔ g ∈ c.classList) := by
  have hget : page.getContainerById c.id = some c := by
    simp only [Page.getContainerById, hsplit]
    exact (setFirstContainer_split c c post pre hfirst).2
  by_cases hf : f ∈ c.classList
  · refine ⟨{ c with classList := classListRemove c.classList f }, ?_, rfl, ?_, ?_⟩
    · have hc : c.classList.contains f = true := by simpa using hf
      simp only [toggle, hget, hc, if_true, hsplit]
      rw [(setFirstContainer_split c _ post pre hfirst).1]
    · simp [classListRemove, hf]
    · intro g hg
      simp [classListRemove, hg]
  · refine ⟨{ c with classList := classListAdd c.classList f }, ?_, rfl, ?_, ?_⟩
    · have hc : c.classList.contains f = false := by simpa using hf
      simp only [toggle, hget, hc, hsplit, Bool.false_eq_true, if_false]
      rw [(setFirstContainer_split c _ post pre hfirst).1]
    · simp [classListAdd, hf]
    · intro g hg
      simp [classListAdd, hf, hg]

/-- C18, concrete instance: toggling `maximize` on the second of two containers takes the flag
off it and leaves the first container as it was. -/
theorem toggle_flips_one_flag_witness :
    cssButtonToggles.contains "maximize" = true ∧
    ∃ c2, toggle "previewer-b" "maximize" togglePage
        = .ok { togglePage with
                containers :=
                  [{ id := "previewer-a", classList := ["previewer"], html := "" }]
                    ++ c2 :: [] } ∧
      c2.id = "previewer-b" ∧ "maximize" ∉ c2.classList ∧ "previewer" ∈ c2.classList :=
  match toggle_flips_one_flag togglePage
      [{ id := "previewer-a", classList := ["previewer"], html := "" }] []
      { id := "previewer-b", classList := ["previewer", "maximize"], html := "" }
      "maximize" rfl (by decide) with
  | ⟨c2, hrun, hid, hflip, hother⟩ =>
    ⟨by decide, c2, hrun, hid, fun h => (hflip.mp h) (by decide),
      (hother "previewer" (by decide)).mpr (by decide)⟩

/-! ## Code diff -/

/-- Rendering into the first diff viewer with id `id`, when there is one, makes that id read
as the rendered props. -/
theorem find?_setFirstDiffViewer (id : String) (props : Option DiffProps) :
    ∀ l : List (String × Option DiffProps),
      (l.find? (fun e => e.1 == id)).isSome = true →
      ((setFirstDiffViewer id props l).find? (fun e => e.1 == id)).map Prod.snd = some props
  | [], h => by simp at h
  | e :: rest, h => by
    by_cases he : e.1 = id
    · simp [setFirstDiffViewer, he]
    · have hb : (e.1 == id) = false := by simpa using he
      have hrest : (rest.find? (fun e => e.1 == id)).isSome = true := by
        simpa [List.find?_cons, hb] using h
      simpa [setFirstDiffViewer, hb, List.find?_cons] using
        find?_setFirstDiffViewer id props rest hrest

/-- The call `viewCodeDiff(oldCode, newCode)` returns; afterwards the element that
`getElementById` gives for the viewer id of this call shows the diff of `oldCode` against
`newCode`, the new container and the new viewer are the last ones of their lists and carry the
id drawn in this call, and the rest of the page is as it was. -/
theorem viewCodeDiff_renders (oldCode newCode : String) (randomInt : Nat) (page : Page) :
    ∃ page2, viewCodeDiff oldCode newCode randomInt page = .ok page2 ∧
      page2.getDiffViewerById ("diffViewer-" ++ toString randomInt)
        = some (some { oldValue := oldCode, newValue := newCode, splitView := true,
                       compareMethod := "diffWordsWithSpace" }) ∧
      page2.containers.map Container.id
        = page.containers.map Container.id ++ ["diffContainer-" ++ toString randomInt] ∧
      page2.diffViewers.map Prod.fst
        = page.diffViewers.map Prod.fst ++ ["diffViewer-" ++ toString randomInt] ∧
      page2.TJPreviewers = page.TJPreviewers ∧ page2.iframes = page.iframes ∧
      page2.inputRawHTML = page.inputRawHTML := by
  have hsome : ((page.insertDiffContainer (toString randomInt)).diffViewers.find?
      (fun e => e.1 == "diffViewer-" ++ toString randomInt)).isSome = true := by
    simp [Page.insertDiffContainer, List.find?_append]
  obtain ⟨found, hfound⟩ := Option.isSome_iff_exists.mp hsome
  have hget : (page.insertDiffContainer (toString randomInt)).getDiffViewerById
      ("diffViewer-" ++ toString randomInt) = some found.2 := by
    simp only [Page.getDiffViewerById, hfound, Option.map_some']
  have hmap : ∀ (props : Option DiffProps) (l : List (String × Option DiffProps)),
      (setFirstDiffViewer ("diffViewer-" ++ toString randomInt) props l).map Prod.fst
        = l.map Prod.fst := by
    intro props l
    induction l with
    | nil => rfl
    | cons e rest ih =>
      by_cases he : e.1 = "diffViewer-" ++ toString randomInt
      · simp [setFirstDiffViewer, he]
      · have hb : (e.1 == "diffViewer-" ++ toString randomInt) = false := by simpa using he
        simp [setFirstDiffViewer, hb, ih]
  refine ⟨{ (page.insertDiffContainer (toString randomInt)) with
      diffViewers := setFirstDiffViewer ("diffViewer-" ++ toString randomInt)
        (some { oldValue := oldCode, newValue := newCode, splitView := true,
                compareMethod := "diffWordsWithSpace" })
        (page.insertDiffContainer (toString randomInt)).diffViewers },
    by simp only [viewCodeDiff, hget], ?_, ?_, ?_, rfl, rfl, rfl⟩
  · exact find?_setFirstDiffViewer _ _ _ hsome
  · simp [Page.insertDiffContainer]
  · simp only [hmap]
    simp [Page.insertDiffContainer]

/-- Rendering into a viewer that has just been added under an id that no earlier viewer
carries fills that last viewer and leaves the earlier ones alone. -/
theorem setFirstDiffViewer_unused (id : String) (props : Option DiffProps) :
    ∀ l : List (String × Option DiffProps), id ∉ l.map Prod.fst →
      setFirstDiffViewer id props (l ++ [(id, none)]) = l ++ [(id, props)]
  | [], _ => by simp [setFirstDiffViewer]
  | e :: rest, h => by
    simp only [List.map_cons, List.mem_cons, not_or] at h
    have hb : (e.1 == id) = false := by
      simpa using fun heq : e.1 = id => h.1 heq.symm
    have ih := setFirstDiffViewer_unused id props rest h.2
    show setFirstDiffViewer id props (e :: (rest ++ [(id, none)]))
      = e :: (rest ++ [(id, props)])
    simp only [setFirstDiffViewer, hb, Bool.false_eq_true, if_false, ih]

/-- The call `viewCodeDiff(oldCode, newCode)` with a draw whose viewer id is not in use
returns the page with one more container and one more viewer, both last in their lists, the
viewer showing the diff of `oldCode` against `newCode`; nothing else has changed. -/
theorem viewCodeDiff_creates (oldCode newCode : String) (randomInt : Nat) (page : Page)
    (hunused : "diffViewer-" ++ toString randomInt ∉ page.diffViewers.map Prod.fst) :
    viewCodeDiff oldCode newCode randomInt page
      = .ok { page with
              containers := page.containers ++
                [{ id := "diffContainer-" ++ toString randomInt
                   classList := ["previewer", "diffViewer", "maximize"]
                   html := diffViewerContainer (toString randomInt) }]
              diffViewers := page.diffViewers ++
                [("diffViewer-" ++ toString randomInt,
                  some { oldValue := oldCode, newValue := newCode, splitView := true,
                         compareMethod := "diffWordsWithSpace" })] } := by
  have hsome : ((page.insertDiffContainer (toString randomInt)).diffViewers.find?
      (fun e => e.1 == "diffViewer-" ++ toString randomInt)).isSome = true := by
    simp [Page.insertDiffContainer, List.find?_append]
  obtain ⟨found, hfound⟩ := Option.isSome_iff_exists.mp hsome
  have hget : (page.insertDiffContainer (toString randomInt)).getDiffViewerById
      ("diffViewer-" ++ toString randomInt) = some found.2 := by
    simp only [Page.getDiffViewerById, hfound, Option.map_some']
  simp only [viewCodeDiff, hget]
  simp only [Page.insertDiffContainer, setFirstDiffViewer_unused _ _ page.diffViewers hunused]

/-- C19, counterexample. On a page that already shows a diff under the id 42, with a surface
that exists and a formatter that returns its input, the view-code-diff action with the draw 42
returns, but the diff view it creates, the last viewer of the page, is empty: the values
`<p>a</p>` and `<p>b</p>` are in the earlier viewer, whose own diff is gone. -/
theorem viewCodeDiff_created_view_empty :
    collidingDiffPage.getElementById "viewer-x"
      = some { markup := "<p>b</p>", scrollX := 0, scrollY := 0 } ∧
    idDiffEnv.prettierFormat collidingDiffPage.inputRawHTML = .ok "<p>a</p>" ∧
    idDiffEnv.prettierFormat (idDiffEnv.bodyInnerHTML "<p>b</p>") = .ok "<p>b</p>" ∧
    ∃ page2, viewCodeDiffButtonClick idDiffEnv "viewer-x" 42 collidingDiffPage = .ok page2 ∧
      page2.diffViewers
        = [("diffViewer-42",
            some { oldValue := "<p>a</p>", newValue := "<p>b</p>", splitView := true,
                   compareMethod := "diffWordsWithSpace" }),
           ("diffViewer-42", none)] ∧
      page2.diffViewers.getLast? = some ("diffViewer-42", none) :=
  ⟨rfl, rfl, rfl, _, rfl, by decide, by decide⟩

/-- C19, amended. For every page with source text `s`, every surface `iframeId` of it whose
rendered output (the body markup of its document) is `r`, a formatter that returns `before`
on `s` and `after` on `r`, and a draw whose viewer id no diff viewer of the page carries: the
view-code-diff action returns, and the diff view it creates, the last viewer of the page,
shows `oldValue = before` and `newValue = after`, in that order and as the formatter returned
them, in a new last container; the earlier viewers and containers, the previewers, the
iframes and the source text are as before. -/
theorem viewCodeDiff_creates_before_after (env : DiffEnv) (page : Page) (iframeId : String)
    (iframe : Iframe) (randomInt : Nat) (before after : String)
    (hsurface : page.getElementById iframeId = some iframe)
    (hbefore : env.prettierFormat page.inputRawHTML = .ok before)
    (hafter : env.prettierFormat (env.bodyInnerHTML iframe.markup) = .ok after)
    (hunused : "diffViewer-" ++ toString randomInt ∉ page.diffViewers.map Prod.fst) :
    ∃ page2, viewCodeDiffButtonClick env iframeId randomInt page = .ok page2 ∧
      page2.diffViewers
        = page.diffViewers ++
          [("diffViewer-" ++ toString randomInt,
            some { oldValue := before, newValue := after, splitView := true,
                   compareMethod := "diffWordsWithSpace" })] ∧
      page2.containers
        = page.containers ++
          [{ id := "diffContainer-" ++ toString randomInt
             classList := ["previewer", "diffViewer", "maximize"]
             html := diffViewerContainer (toString randomInt) }] ∧
      page2.TJPreviewers = page.TJPreviewers ∧ page2.iframes = page.iframes ∧
      page2.inputRawHTML = page.inputRawHTML := by
  refine ⟨{ page with
      containers := page.containers ++
        [{ id := "diffContainer-" ++ toString randomInt
           classList := ["previewer", "diffViewer", "maximize"]
           html := diffViewerContainer (toString randomInt) }]
      diffViewers := page.diffViewers ++
        [("diffViewer-" ++ toString randomInt,
          some { oldValue := before, newValue := after, splitView := true,
                 compareMethod := "diffWordsWithSpace" })] },
    ?_, rfl, rfl, rfl, rfl, rfl⟩
  simp only [viewCodeDiffButtonClick, hsurface, getPrettierHTML, hbefore, hafter]
  exact viewCodeDiff_creates before after randomInt page hunused

/-- C19, concrete instance of the amended statement: with a formatter that returns its input,
source `<p>a</p>`, a surface showing `<p>b</p>` and no diff viewer yet, the created diff view
has `oldValue = <p>a</p>` and `newValue = <p>b</p>`. -/
theorem viewCodeDiff_creates_before_after_witness :
    ∃ page2, viewCodeDiffButtonClick idDiffEnv "viewer-x" 42 diffPage = .ok page2 ∧
      page2.diffViewers
        = [("diffViewer-42",
            some { oldValue := "<p>a</p>", newValue := "<p>b</p>", splitView := true,
                   compareMethod := "diffWordsWithSpace" })] :=
  match viewCodeDiff_creates_before_after idDiffEnv diffPage "viewer-x"
      { markup := "<p>b</p>", scrollX := 0, scrollY := 0 } 42 "<p>a</p>" "<p>b</p>"
      rfl rfl rfl (by decide) with
  | ⟨page2, hrun, hview, _⟩ => ⟨page2, hrun, hview.trans rfl⟩

/-- C20, evaluated. The id of a diff view is the number drawn in the call and nothing else, so
two calls of `viewCodeDiff` with the same draw give both containers the id
`diffContainer-5001` and both viewers the id `diffViewer-5001`; the second call then renders
into the viewer of the first call and leaves its own viewer empty. -/
theorem viewCodeDiff_same_draw_same_id :
    ∃ page1 page2,
      viewCodeDiff "<p>a</p>" "<p>b</p>" 5001 emptyWorkbench = .ok page1 ∧
      viewCodeDiff "<p>c</p>" "<p>d</p>" 5001 page1 = .ok page2 ∧
      page2.containers.map Container.id = ["diffContainer-5001", "diffContainer-5001"] ∧
      page2.diffViewers
        = [("diffViewer-5001",
            some { oldValue := "<p>c</p>", newValue := "<p>d</p>", splitView := true,
                   compareMethod := "diffWordsWithSpace" }),
           ("diffViewer-5001", none)] :=
  ⟨_, _, rfl, rfl, by decide, by decide⟩


/-- C21, counterexample. With a formatter that rejects its input, the view-code-diff action on
an existing surface ends with the formatter's exception: it does not return, so it creates no
diff surface and shows no error in one. -/
theorem viewCodeDiff_action_throws :
    viewCodeDiffButtonClick rejectingEnv "viewer-x" 42 diffPage
      = .error (.thrown "SyntaxError: Unexpected closing tag") ∧
    ∀ page2, viewCodeDiffButtonClick rejectingEnv "viewer-x" 42 diffPage ≠ .ok page2 :=
  ⟨rfl, fun _ h => by cases h⟩

/-- C21, amended. When the formatter rejects the source text, or returns on it and rejects the
rendered output of the surface, the view-code-diff action ends with the formatter's exception.
Both formatter calls come before the first write of the action, so nothing of the page has
changed at that moment and no diff surface has been created. -/
theorem viewCodeDiff_throws_when_rejected (env : DiffEnv) (page : Page) (iframeId : String)
    (iframe : Iframe) (randomInt : Nat) (message : String)
    (hsurface : page.getElementById iframeId = some iframe)
    (hreject : env.prettierFormat page.inputRawHTML = .error message ∨
      ((∃ before, env.prettierFormat page.inputRawHTML = .ok before) ∧
        env.prettierFormat (env.bodyInnerHTML iframe.markup) = .error message)) :
    viewCodeDiffButtonClick env iframeId randomInt page = .error (.thrown message) ∧
    ∀ page2, viewCodeDiffButtonClick env iframeId randomInt page ≠ .ok page2 := by
  have hrun : viewCodeDiffButtonClick env iframeId randomInt page
      = .error (.thrown message) := by
    rcases hreject with h1 | ⟨⟨before, h1⟩, h2⟩
    · simp only [viewCodeDiffButtonClick, hsurface, getPrettierHTML, h1]
    · simp only [viewCodeDiffButtonClick, hsurface, getPrettierHTML, h1, h2]
  refine ⟨hrun, ?_⟩
  intro page2 h
  rw [hrun] at h
  cases h

/-- C21, concrete instance of the amended statement: the rejecting formatter on the page of
`ogclean`. -/
theorem viewCodeDiff_throws_when_rejected_witness :
    viewCodeDiffButtonClick rejectingEnv "viewer-ogclean" 7 ogcleanPage
      = .error (.thrown "SyntaxError: Unexpected closing tag") :=
  (viewCodeDiff_throws_when_rejected rejectingEnv ogcleanPage "viewer-ogclean"
    { markup := "stale", scrollX := 0, scrollY := 0 } 7
    "SyntaxError: Unexpected closing tag" rfl (Or.inl rfl)).1

/-! ## The built-in data -/

/-- C23. In the built-in data the names of `sanitizerPlugins` are pairwise distinct, the names
of `framePlugins` are pairwise distinct and the names of the `previewers` configuration are
pairwise distinct; so are the surface ids and the container ids of the built-in previewers. -/
theorem builtin_names_distinct (libs : Libs) :
    ((sanitizerPlugins libs).map SanitizerPlugin.name).Nodup ∧
    (framePlugins.map FramePlugin.name).Nodup ∧
    (previewers.map PreviewerConfig.name).Nodup ∧
    (previewers.map (fun c => (Previewer.new c).iframeId)).Nodup ∧
    (previewers.map (fun c => (Previewer.new c).containerId)).Nodup := by
  have h1 : (sanitizerPlugins libs).map SanitizerPlugin.name
      = ["original", "tinymce", "dompurify", "dompurify-tjwhitelist"] := rfl
  rw [h1]
  exact ⟨by decide, by decide, by decide, by decide, by decide⟩

/-! ## Frame of a refresh -/

/-- C25. For every previewer `p`, a call of `updatePreviewer` that returns leaves the page as
it was except for the first surface with id `p.iframeId()`: the source text, the previewer
array, the containers, the diff viewers and every surface with another id are the same after
the refresh as before it. -/
theorem updatePreviewer_writes_own_surface (san : Sanitizers) (fr : Frames) (p : Previewer)
    (page page2 : Page) (h : p.updatePreviewer san fr page = .ok page2) :
    (∃ written, page2 = page.setElement p.iframeId written) ∧
    page2.inputRawHTML = page.inputRawHTML ∧
    page2.TJPreviewers = page.TJPreviewers ∧
    page2.containers = page.containers ∧
    page2.diffViewers = page.diffViewers ∧
    ∀ id, id ≠ p.iframeId → page2.getElementById id = page.getElementById id := by
  obtain ⟨h1, h2, h3, h4, _⟩ := updatePreviewer_keeps san fr p page page2 h
  refine ⟨?_, h2, h1, h3, h4, fun id hid => updatePreviewer_other san fr p page page2 h id hid⟩
  unfold Previewer.updatePreviewer at h
  cases hf : fr.injectMethod p.frameName with
  | error e => simp [hf] at h
  | ok inject =>
    cases hr : p.renderSanitizedHTML san (p.getSourceRawHTML page) with
    | error e => simp [hf, hr] at h
    | ok sanitized =>
      cases hw : inject (page.getElementById p.iframeId) sanitized with
      | error e => simp [hf, hr, hw] at h
      | ok written =>
        simp only [hf, hr, hw, Except.ok.injEq] at h
        exact ⟨written, h.symm⟩

/-- C25, concrete instance: refreshing `ogclean` on a page that also has the surfaces of
`broken` and `lead` changes `viewer-ogclean` only. -/
theorem updatePreviewer_writes_own_surface_witness :
    ogclean.updatePreviewer (TJSanitizers idLibs) TJFrames brokenSecondPage
      = .ok { brokenSecondPage with
              iframes :=
                [("viewer-ogclean", { markup := "<b>hi</b>", scrollX := 0, scrollY := 0 }),
                 ("viewer-broken", staleIframe), ("viewer-lead", staleIframe)] } ∧
    ({ brokenSecondPage with
        iframes :=
          [("viewer-ogclean", { markup := "<b>hi</b>", scrollX := 0, scrollY := 0 }),
           ("viewer-broken", staleIframe), ("viewer-lead", staleIframe)] } : Page
      ).getElementById "viewer-lead" = brokenSecondPage.getElementById "viewer-lead" :=
  ⟨rfl,
   (updatePreviewer_writes_own_surface (TJSanitizers idLibs) TJFrames ogclean brokenSecondPage
      { brokenSecondPage with
        iframes :=
          [("viewer-ogclean", { markup := "<b>hi</b>", scrollX := 0, scrollY := 0 }),
           ("viewer-broken", staleIframe), ("viewer-lead", staleIframe)] }
      rfl).2.2.2.2.2 "viewer-lead" (by decide)⟩

/-! ## Algebra of chains -/

/-- C26. For every registry, every string `s` and all name lists `A` and `B`:
`sanitizeChain(s, A ++ B)` is `sanitizeChain(·, B)` applied to the result of
`sanitizeChain(s, A)`; when the first piece throws, so does the whole chain, with the same
exception. -/
theorem sanitizeChain_append (reg : Sanitizers) (s : String) (A B : List String) :
    reg.sanitizeChain s (A ++ B)
      = match reg.sanitizeChain s A with
        | .ok mid => reg.sanitizeChain mid B
        | .error e => .error e := by
  simp only [Sanitizers.sanitizeChain, List.foldlM_append]
  cases List.foldlM (fun output sanitizerName => reg.sanitize output sanitizerName) s A <;> rfl

/-- A chain of one name is one call of `sanitize`. -/
theorem sanitizeChain_singleton (reg : Sanitizers) (s n : String) :
    reg.sanitizeChain s [n] = reg.sanitize s n := by
  simp only [Sanitizers.sanitizeChain, List.foldlM_cons, List.foldlM_nil]
  cases reg.sanitize s n <;> rfl

/-- C27. In the built-in sanitizer registry, whatever the external libraries do, the step
`original` is the identity: for every string `s` and every chain `C`,
`sanitizeChain(s, ['original'] ++ C) = sanitizeChain(s, C)`; so a chain `['original', X]`, as
each built-in previewer other than `ogclean` has, produces exactly `sanitize(s, X)`. -/
theorem original_step_identity (libs : Libs) (s : String) :
    (TJSanitizers libs).sanitize s "original" = .ok s ∧
    (∀ C : List String,
      (TJSanitizers libs).sanitizeChain s (["original"] ++ C)
        = (TJSanitizers libs).sanitizeChain s C) ∧
    (∀ X : String,
      (TJSanitizers libs).sanitizeChain s ["original", X] = (TJSanitizers libs).sanitize s X) ∧
    (∀ c ∈ previewers, c.sanitizers = ["original"] ∨
      ∃ X, c.sanitizers = ["original", X] ∧
        (TJSanitizers libs).sanitizeChain s c.sanitizers = (TJSanitizers libs).sanitize s X) := by
  have hcons : ∀ C : List String,
      (TJSanitizers libs).sanitizeChain s (["original"] ++ C)
        = (TJSanitizers libs).sanitizeChain s C := by
    intro C
    simp only [Sanitizers.sanitizeChain, List.singleton_append, List.foldlM_cons]
    rfl
  have hpair : ∀ X : String,
      (TJSanitizers libs).sanitizeChain s ["original", X]
        = (TJSanitizers libs).sanitize s X := by
    intro X
    exact (hcons [X]).trans (sanitizeChain_singleton _ s X)
  refine ⟨rfl, hcons, hpair, ?_⟩
  intro c hc
  simp only [previewers, List.mem_cons, List.mem_singleton, List.not_mem_nil, or_false] at hc
  rcases hc with rfl | rfl | rfl | rfl | rfl
  · exact Or.inl rfl
  · exact Or.inr ⟨_, rfl, hpair _⟩
  · exact Or.inr ⟨_, rfl, hpair _⟩
  · exact Or.inr ⟨_, rfl, hpair _⟩
  · exact Or.inr ⟨_, rfl, hpair _⟩

/-! ## Duplicate names -/

/-- A search by key in `pre ++ p :: post` finds `p` when no member of `pre` carries its key. -/
theorem find?_first_match {α : Type} (key : α → String) (p : α) (post : List α) :
    ∀ pre : List α, (∀ x ∈ pre, key x ≠ key p) →
      (pre ++ p :: post).find? (fun x => key x == key p) = some p
  | [], _ => by simp
  | x :: pre, h => by
    have hx : (key x == key p) = false := by simpa using h x (List.mem_cons_self _ _)
    simp only [List.cons_append, List.find?_cons, hx]
    exact find?_first_match key p post pre (fun y hy => h y (List.mem_cons_of_mem _ hy))

/-- C28. When the plugins of a sanitizer registry are `pre ++ p :: post` and no plugin of
`pre` has the name of `p`, every lookup by that name resolves to `p`, whatever `post` holds,
plugins of the same name included; likewise for a frame registry `fpre ++ q :: fpost`. So a
lookup reaches the first plugin of a name in registration order and no later one. -/
theorem lookup_first_match (reg : Sanitizers) (fr : Frames)
    (pre post : List SanitizerPlugin) (p : SanitizerPlugin)
    (fpre fpost : List FramePlugin) (q : FramePlugin) (s : String)
    (hreg : reg.plugins = pre ++ p :: post) (hpre : ∀ x ∈ pre, x.name ≠ p.name)
    (hfr : fr.plugins = fpre ++ q :: fpost) (hfpre : ∀ x ∈ fpre, x.name ≠ q.name) :
    reg.description p.name = .ok p.description ∧
    reg.sanitizerMethod p.name = .ok p.sanitizerMethod ∧
    reg.sanitize s p.name = callSanitizer p.sanitizerMethod s ∧
    fr.description q.name = .ok q.description ∧
    fr.injectMethod q.name = .ok q.injectMethod := by
  have h1 : reg.find p.name = some p := by
    simp only [Sanitizers.find, hreg]
    exact find?_first_match SanitizerPlugin.name p post pre hpre
  have h2 : fr.find q.name = some q := by
    simp only [Frames.find, hfr]
    exact find?_first_match FramePlugin.name q fpost fpre hfpre
  simp [Sanitizers.description, Sanitizers.sanitizerMethod, Sanitizers.sanitize,
    Frames.description, Frames.injectMethod, h1, h2]

/-- C28, concrete instance: in a registry with two plugins named `dup`, the lookups by `dup`
give the description and the transform of the first. -/
theorem lookup_first_match_witness :
    dupRegistry.description "dup" = .ok "First" ∧
    dupRegistry.sanitize "s" "dup" = .ok "s1" ∧
    TJFrames.description "clean" = .ok "Clean iframe" :=
  have h := lookup_first_match dupRegistry TJFrames
    [{ name := "other", description := "Other", sanitizerMethod := fun str => .ok str }]
    [{ name := "dup", description := "Second",
       sanitizerMethod := fun str => .ok (str ++ "2") }]
    { name := "dup", description := "First", sanitizerMethod := fun str => .ok (str ++ "1") }
    []
    [ { name := "redbase", description := "Red base style",
        injectMethod := fun iframe str => openWriteClose iframe (redbaseContent str) },
      { name := "tjcss", description := "TJ CSS (prod)",
        injectMethod := fun iframe str => openWriteClose iframe (tjcssContent str) } ]
    { name := "clean", description := "Clean iframe",
      injectMethod := fun iframe str => openWriteClose iframe str }
    "s" rfl (by decide) rfl (by decide)
  ⟨h.1, h.2.2.1.trans rfl, h.2.2.2.1⟩

/-! ## Clipboard -/

/-- C29. For every page and every surface id, `copyToClipboard(id, true)` and
`copyToClipboard(id, false)` have the same outcome: when the surface exists both hand its body
markup to the clipboard writer, otherwise both throw the same error. The listeners of
`Copy rich text` and `Copy iframe HTML` therefore do the same. -/
theorem copyToClipboard_ignores_flag (env : DiffEnv) (iframeId : String) (page : Page) :
    copyToClipboard env iframeId true page = copyToClipboard env iframeId false page ∧
    copyRichTextButtonClick env iframeId page = copyRawHTMLButtonClick env iframeId page ∧
    (∀ (iframe : Iframe) (copyAsRichText : Bool), page.getElementById iframeId = some iframe →
      copyToClipboard env iframeId copyAsRichText page
        = .ok (env.bodyInnerHTML iframe.markup)) := by
  refine ⟨rfl, rfl, ?_⟩
  intro iframe copyAsRichText h
  simp only [copyToClipboard, h]

/-! ## Lemmas on the initialised workbench -/

/-- The chain of a name followed by further names is the chain of the further names on the
output of the first step. -/
theorem sanitizeChain_cons (reg : Sanitizers) (s n : String) (C : List String) :
    reg.sanitizeChain s (n :: C)
      = match reg.sanitize s n with
        | .ok mid => reg.sanitizeChain mid C
        | .error e => .error e := by
  simp only [Sanitizers.sanitizeChain, List.foldlM_cons]
  cases reg.sanitize s n <;> rfl

/-- A chain of registered names returns, or throws an exception of one of its sanitizers. -/
theorem sanitizeChain_registered (reg : Sanitizers) :
    ∀ (C : List String) (s : String),
      (∀ n ∈ C, n ∈ reg.plugins.map SanitizerPlugin.name) →
      (∃ out, reg.sanitizeChain s C = .ok out) ∨
        (∃ message, reg.sanitizeChain s C = .error (.thrown message))
  | [], s, _ => Or.inl ⟨s, rfl⟩
  | n :: C, s, h => by
    rw [sanitizeChain_cons]
    cases hfind : reg.find n with
    | none =>
      have := (find?_key_eq_none SanitizerPlugin.name reg.plugins n).mp hfind
      exact absurd (h n (List.mem_cons_self _ _)) this
    | some p =>
      have hs : reg.sanitize s n = callSanitizer p.sanitizerMethod s := by
        simp [Sanitizers.sanitize, hfind]
      rw [hs]
      unfold callSanitizer
      cases p.sanitizerMethod s with
      | error message => exact Or.inr ⟨message, rfl⟩
      | ok mid =>
        exact sanitizeChain_registered reg C mid (fun m hm => h m (List.mem_cons_of_mem _ hm))

/-- The refresh loop over previewers that have their surface, name registered sanitizers only
and resolve to an injector that returns on existing targets can only end with an exception
thrown by a sanitizer. -/
theorem refreshLoop_thrown_by_sanitizer (san : Sanitizers) (fr : Frames) :
    ∀ (l : List Previewer) (page : Page),
      (∀ p ∈ l, p.iframeId ∈ page.iframes.map Prod.fst ∧
        (∀ n ∈ p.sanitizerNameList, n ∈ san.plugins.map SanitizerPlugin.name) ∧
        (∃ inject, fr.injectMethod p.frameName = .ok inject ∧
          ∀ t s, ∃ w, inject (some t) s = .ok w)) →
      ∀ e, (forEachKeep (fun pg (p : Previewer) => p.updatePreviewer san fr pg) l page).thrown
          = some e → ∃ message, e = .thrown message
  | [], _, _, e, h => by simp [forEachKeep] at h
  | p :: rest, page, h, e, he => by
    obtain ⟨hsurf, hnames, inject, hinject, htotal⟩ := h p (List.mem_cons_self _ _)
    rcases sanitizeChain_registered san p.sanitizerNameList page.inputRawHTML hnames with
      ⟨html, hhtml⟩ | ⟨message, hmessage⟩
    · obtain ⟨target, htarget⟩ :=
        Option.isSome_iff_exists.mp ((getElementById_isSome_iff page p.iframeId).mpr hsurf)
      obtain ⟨w, hw⟩ := htotal target html
      have hrun := updatePreviewer_of_resolved san fr p page html inject hhtml hinject
      simp only [htarget, hw] at hrun
      simp only [forEachKeep, hrun] at he
      refine refreshLoop_thrown_by_sanitizer san fr rest _ ?_ e he
      intro q hq
      obtain ⟨qsurf, qnames, qinject⟩ := h q (List.mem_cons_of_mem _ hq)
      refine ⟨?_, qnames, qinject⟩
      simp only [Page.setElement, setFirst_map_fst]
      exact qsurf
    · have hrun : p.updatePreviewer san fr page = .error (.thrown message) := by
        have hrender : p.renderSanitizedHTML san (p.getSourceRawHTML page)
            = .error (.thrown message) := hmessage
        simp only [Previewer.updatePreviewer, hinject, hrender]
      simp only [forEachKeep, hrun, Option.some.injEq] at he
      exact ⟨message, he.symm⟩

/-- The built-in configuration names registered plugins only, and no chain is empty. -/
theorem previewers_resolvable (libs : Libs) :
    ∀ c ∈ previewers, c.sanitizers ≠ [] ∧
      (∀ n ∈ c.sanitizers, n ∈ (sanitizerPlugins libs).map SanitizerPlugin.name) ∧
      c.frame ∈ framePlugins.map FramePlugin.name := by
  have h1 : (sanitizerPlugins libs).map SanitizerPlugin.name
      = ["original", "tinymce", "dompurify", "dompurify-tjwhitelist"] := rfl
  rw [h1]
  intro c hc
  simp only [previewers, List.mem_cons, List.mem_singleton, List.not_mem_nil, or_false] at hc
  rcases hc with rfl | rfl | rfl | rfl | rfl <;>
    exact ⟨by decide, by decide, by decide⟩

/-- The three parts of `workbenchReady`. -/
theorem workbenchReady_iff (page : Page) :
    workbenchReady page = true ↔
      page.TJPreviewers ≠ [] ∧
      (∀ p ∈ page.TJPreviewers, p ∈ previewers.map Previewer.new) ∧
      ∀ c ∈ previewers, (Previewer.new c).iframeId ∈ page.iframes.map Prod.fst := by
  have hsome : ∀ c : PreviewerConfig,
      (page.getElementById (Previewer.new c).iframeId).isSome = true
        ↔ (Previewer.new c).iframeId ∈ page.iframes.map Prod.fst :=
    fun c => getElementById_isSome_iff page _
  have hmem : ∀ p : Previewer,
      (previewers.map Previewer.new).contains p = true ↔ p ∈ previewers.map Previewer.new :=
    fun p => by simp [List.contains]
  simp only [workbenchReady, Bool.and_eq_true, Bool.not_eq_true', List.isEmpty_eq_false,
    List.all_eq_true, hmem, hsome, and_assoc]

/-- Readiness depends on the previewer array and the ids of the iframes only. -/
theorem workbenchReady_of_same (page page2 : Page)
    (hT : page2.TJPreviewers = page.TJPreviewers)
    (hI : page2.iframes.map Prod.fst = page.iframes.map Prod.fst)
    (h : workbenchReady page = true) : workbenchReady page2 = true := by
  rw [workbenchReady_iff] at h ⊢
  rw [hT, hI]
  exact h

/-- After `initialize()` on a page whose previewer array holds built-in previewers only, as
the empty array does, the workbench is ready. -/
theorem workbenchReady_initialize (libs : Libs) (page : Page)
    (hbuiltin : ∀ p ∈ page.TJPreviewers, p ∈ previewers.map Previewer.new) :
    workbenchReady
      (initializeWorkbench (TJSanitizers libs) TJFrames previewers page).page = true := by
  obtain ⟨hT, hI⟩ := initializeWorkbench_builtin libs page
  rw [workbenchReady_iff, hT, hI]
  refine ⟨?_, ?_, ?_⟩
  · intro h
    have := congrArg List.length h
    simp [previewers] at this
  · intro p hp
    rcases List.mem_append.mp hp with h | h
    · exact hbuiltin p h
    · exact h
  · intro c hc
    exact List.mem_map_of_mem _ hc

/-- On a ready workbench the leader lookup of `initializeSyncScroll` returns the surface id of
the first previewer. -/
theorem workbenchReady_sync (page : Page) (h : workbenchReady page = true) :
    ∃ leader, page.TJPreviewers.head? = some leader ∧
      initializeSyncScroll page = .ok leader.iframeId := by
  rw [workbenchReady_iff] at h
  obtain ⟨hne, hall, hsurf⟩ := h
  cases hT : page.TJPreviewers with
  | nil => exact absurd hT hne
  | cons first rest =>
    obtain ⟨c, hc, hfirst⟩ := List.mem_map.mp (hall first (hT ▸ List.mem_cons_self _ _))
    have hid := (getElementById_isSome_iff page first.iframeId).mpr (hfirst ▸ hsurf c hc)
    obtain ⟨f, hf⟩ := Option.isSome_iff_exists.mp hid
    refine ⟨first, rfl, ?_⟩
    simp only [initializeSyncScroll, hT, List.getElem?_cons_zero, hf]

/-- On a ready workbench with the built-in registries, `updatePreviewers` leaves the workbench
ready, its leader lookup returns, and the only exception it can end with is one thrown by a
sanitizer library. -/
theorem updatePreviewers_ready (libs : Libs) (page : Page) (h : workbenchReady page = true) :
    workbenchReady (updatePreviewers (TJSanitizers libs) TJFrames page).page = true ∧
    (∃ id, initializeSyncScroll (updatePreviewers (TJSanitizers libs) TJFrames page).page
      = .ok id) ∧
    ∀ e, (updatePreviewers (TJSanitizers libs) TJFrames page).thrown = some e →
      ∃ message, e = .thrown message := by
  obtain ⟨kT, _, _, kI⟩ := updatePreviewers_keeps (TJSanitizers libs) TJFrames page
  have hready2 := workbenchReady_of_same page _ kT kI h
  obtain ⟨leader, _, hsync⟩ := workbenchReady_sync _ hready2
  refine ⟨hready2, ⟨_, hsync⟩, ?_⟩
  intro e he
  rw [updatePreviewers_thrown] at he
  rw [updatePreviewers_page] at hsync
  have hparts := (workbenchReady_iff page).mp h
  cases hloop : (forEachKeep (fun pg (p : Previewer) =>
      p.updatePreviewer (TJSanitizers libs) TJFrames pg) page.TJPreviewers page).thrown with
  | some e2 =>
    simp only [hloop, Option.some.injEq] at he
    subst he
    refine refreshLoop_thrown_by_sanitizer (TJSanitizers libs) TJFrames page.TJPreviewers page
      ?_ e2 hloop
    intro p hp
    obtain ⟨c, hc, rfl⟩ := List.mem_map.mp (hparts.2.1 p hp)
    exact ⟨hparts.2.2 c hc, (previewers_resolvable libs c hc).2.1, previewers_frame_ok c hc⟩
  | none =>
    simp only [hloop, hsync] at he
    cases he

/-- On the built-in registries and configuration the creation loop of `initialize()` never
throws, so `initialize()` is `updatePreviewers()` on the page that the loop leaves. -/
theorem initializeWorkbench_eq_update (libs : Libs) (page : Page) :
    initializeWorkbench (TJSanitizers libs) TJFrames previewers page
      = updatePreviewers (TJSanitizers libs) TJFrames
          (forEachKeep (initializeStep (TJSanitizers libs) TJFrames) previewers
            page.clearPreviewArea).page := by
  obtain ⟨h1, _⟩ := initializeLoop_ok (TJSanitizers libs) TJFrames previewers
    page.clearPreviewArea (previewers_render libs)
  simp only [initializeWorkbench, h1]

/-- The page that the creation loop of `initialize()` leaves is ready when the previewer array
held built-in previewers only. -/
theorem workbenchReady_created (libs : Libs) (page : Page)
    (hbuiltin : ∀ p ∈ page.TJPreviewers, p ∈ previewers.map Previewer.new) :
    workbenchReady (forEachKeep (initializeStep (TJSanitizers libs) TJFrames) previewers
      page.clearPreviewArea).page = true := by
  obtain ⟨_, h2, _, h4, _⟩ := initializeLoop_ok (TJSanitizers libs) TJFrames previewers
    page.clearPreviewArea (previewers_render libs)
  rw [workbenchReady_iff, h2, h4]
  refine ⟨?_, ?_, ?_⟩
  · intro h
    have := congrArg List.length h
    simp [previewers] at this
  · intro p hp
    rcases List.mem_append.mp hp with h | h
    · exact hbuiltin p h
    · exact h
  · intro c hc
    exact List.mem_append_right _ (List.mem_map_of_mem _ hc)

/-- A lookup of a registered sanitizer name finds a plugin. -/
theorem find_of_registered (reg : Sanitizers) (n : String)
    (h : n ∈ reg.plugins.map SanitizerPlugin.name) : ∃ p, reg.find n = some p := by
  cases hfind : reg.find n with
  | none => exact absurd h ((find?_key_eq_none SanitizerPlugin.name reg.plugins n).mp hfind)
  | some p => exact ⟨p, rfl⟩

/-- A lookup of a registered frame name finds a plugin. -/
theorem find_of_registered_frame (fr : Frames) (n : String)
    (h : n ∈ fr.plugins.map FramePlugin.name) : ∃ q, fr.find n = some q := by
  cases hfind : fr.find n with
  | none => exact absurd h ((find?_key_eq_none FramePlugin.name fr.plugins n).mp hfind)
  | some q => exact ⟨q, rfl⟩

/-! ## The built-in configuration resolves -/

/-- C22. For every entry of the built-in `previewers` list the `sanitizers` list is not empty,
every name in it is the name of a plugin of `sanitizerPlugins`, and the frame is the name of a
plugin of `framePlugins`; so each lookup of these names returns. Hence, on a page whose
previewer array holds built-in previewers only (as the empty array at load time does),
`initialize()`, and `updatePreviewers()` after it for any source text, never end with a
failed lookup: the only exception they can end with is one thrown by a sanitizer library. -/
theorem builtin_configuration_resolvable (libs : Libs) (page : Page)
    (hbuiltin : ∀ p ∈ page.TJPreviewers, p ∈ previewers.map Previewer.new) :
    (∀ c ∈ previewers, c.sanitizers ≠ [] ∧
      (∀ n ∈ c.sanitizers, n ∈ (sanitizerPlugins libs).map SanitizerPlugin.name) ∧
      c.frame ∈ framePlugins.map FramePlugin.name) ∧
    (∀ c ∈ previewers,
      (∀ n ∈ c.sanitizers, ∃ d f, (TJSanitizers libs).description n = .ok d ∧
        (TJSanitizers libs).sanitizerMethod n = .ok f) ∧
      ∃ d inject, TJFrames.description c.frame = .ok d ∧
        TJFrames.injectMethod c.frame = .ok inject) ∧
    (∀ e, (initializeWorkbench (TJSanitizers libs) TJFrames previewers page).thrown = some e →
      ∃ message, e = .thrown message) ∧
    (∀ s e,
      (updatePreviewers (TJSanitizers libs) TJFrames
        { (initializeWorkbench (TJSanitizers libs) TJFrames previewers page).page with
          inputRawHTML := s }).thrown = some e →
      ∃ message, e = .thrown message) := by
  refine ⟨previewers_resolvable libs, ?_, ?_, ?_⟩
  · intro c hc
    obtain ⟨_, hnames, hframe⟩ := previewers_resolvable libs c hc
    constructor
    · intro n hn
      obtain ⟨p, hp⟩ := find_of_registered (TJSanitizers libs) n (hnames n hn)
      exact ⟨p.description, p.sanitizerMethod, by
        simp [Sanitizers.description, Sanitizers.sanitizerMethod, hp]⟩
    · obtain ⟨q, hq⟩ := find_of_registered_frame TJFrames c.frame hframe
      exact ⟨q.description, q.injectMethod, by
        simp [Frames.description, Frames.injectMethod, hq]⟩
  · rw [initializeWorkbench_eq_update]
    exact (updatePreviewers_ready libs _ (workbenchReady_created libs page hbuiltin)).2.2
  · intro s
    have hready := workbenchReady_initialize libs page hbuiltin
    exact (updatePreviewers_ready libs _
      (workbenchReady_of_same _
        { (initializeWorkbench (TJSanitizers libs) TJFrames previewers page).page with
          inputRawHTML := s } rfl rfl hready)).2.2

/-- C22, concrete instance: from the empty workbench with a Word paste filter that throws,
`initialize()` ends with the exception of the filter, not with a failed lookup. -/
theorem builtin_configuration_resolvable_witness :
    (initializeWorkbench (TJSanitizers throwingLibs) TJFrames previewers emptyWorkbench).thrown
      = some (.thrown "filter failed") ∧
    ∃ message,
      JsError.thrown "filter failed" = .thrown message :=
  ⟨rfl,
   (builtin_configuration_resolvable throwingLibs emptyWorkbench
      (fun _ h => nomatch h)).2.2.1 (.thrown "filter failed") rfl⟩

/-! ## The leader lookup -/

/-- C30. The read of `TJPreviewers[0]` in `initializeSyncScroll` fails exactly when the array is
empty. On the built-in registries and configuration, after `initialize()` on a page whose
array holds built-in previewers only (as the empty array at load time does) the array is not
empty and the workbench is ready; and on a ready workbench each call that reaches
`updatePreviewers()` (a change of the source text, `clear()`, an example, `initialize()`
again) leaves it ready, its leader lookup returns, and it can only end with an exception
thrown by a sanitizer library. -/
theorem leader_lookup_never_fails (libs : Libs) (page : Page)
    (hbuiltin : ∀ p ∈ page.TJPreviewers, p ∈ previewers.map Previewer.new) :
    (∀ pg : Page,
      initializeSyncScroll pg = .error (.undefinedProperty "iframeId") ↔ pg.TJPreviewers = []) ∧
    (initializeWorkbench (TJSanitizers libs) TJFrames previewers page).page.TJPreviewers ≠ [] ∧
    workbenchReady (initializeWorkbench (TJSanitizers libs) TJFrames previewers page).page
      = true ∧
    (∀ pg : Page, workbenchReady pg = true →
      ∀ (run : Page → Outcome),
        ((∃ value, run = inputChanged (TJSanitizers libs) TJFrames value) ∨
          run = clear (TJSanitizers libs) TJFrames ∨
          (∃ exampleText, run = addExample (TJSanitizers libs) TJFrames exampleText) ∨
          run = initializeWorkbench (TJSanitizers libs) TJFrames previewers ∨
          run = updatePreviewers (TJSanitizers libs) TJFrames) →
        workbenchReady (run pg).page = true ∧
        (∃ id, initializeSyncScroll (run pg).page = .ok id) ∧
        ∀ e, (run pg).thrown = some e → ∃ message, e = .thrown message) := by
  have hready := workbenchReady_initialize libs page hbuiltin
  refine ⟨?_, ((workbenchReady_iff _).mp hready).1, hready, ?_⟩
  · intro pg
    unfold initializeSyncScroll
    cases hT : pg.TJPreviewers with
    | nil => simp
    | cons first rest =>
      cases hfirst : pg.getElementById first.iframeId <;> simp [hfirst]
  · intro pg hpg run hrun
    have hsource : ∀ value : String,
        workbenchReady ({ pg with inputRawHTML := value } : Page) = true :=
      fun value => workbenchReady_of_same pg _ rfl rfl hpg
    rcases hrun with ⟨value, rfl⟩ | rfl | ⟨exampleText, rfl⟩ | rfl | rfl
    · exact updatePreviewers_ready libs _ (hsource value)
    · exact updatePreviewers_ready libs _ (hsource "")
    · exact updatePreviewers_ready libs _ (hsource exampleText)
    · have hb := ((workbenchReady_iff pg).mp hpg).2.1
      rw [initializeWorkbench_eq_update]
      exact updatePreviewers_ready libs _ (workbenchReady_created libs pg hb)
    · exact updatePreviewers_ready libs pg hpg

/-- C30, concrete instance: from the empty workbench, after `initialize()` and then `clear()`
the leader lookup returns `viewer-ogclean`. -/
theorem leader_lookup_never_fails_witness :
    initializeSyncScroll
      (clear (TJSanitizers idLibs) TJFrames
        (initializeWorkbench (TJSanitizers idLibs) TJFrames previewers
          emptyWorkbench).page).page = .ok "viewer-ogclean" ∧
    ∃ id, initializeSyncScroll
      (clear (TJSanitizers idLibs) TJFrames
        (initializeWorkbench (TJSanitizers idLibs) TJFrames previewers
          emptyWorkbench).page).page = .ok id :=
  have h := leader_lookup_never_fails idLibs emptyWorkbench (fun _ h => nomatch h)
  ⟨rfl, (h.2.2.2 _ h.2.2.1 _ (Or.inr (Or.inl rfl))).2.1⟩

/-! ## Order of the refreshes -/

/-- Writes to the first iframes of two different ids can be done in either order. -/
theorem setFirst_comm (id1 id2 : String) (w1 w2 : Iframe) (hne : id1 ≠ id2) :
    ∀ l : List (String × Iframe),
      setFirst id2 w2 (setFirst id1 w1 l) = setFirst id1 w1 (setFirst id2 w2 l)
  | [] => rfl
  | e :: rest => by
    by_cases h1 : e.1 = id1
    · have h2 : ¬ e.1 = id2 := fun h => hne (h1.symm.trans h)
      have hb1 : (e.1 == id1) = true := by simpa using h1
      have hb2 : (e.1 == id2) = false := by simpa using h2
      simp only [setFirst, hb1, hb2, if_true, Bool.false_eq_true, if_false]
    · have hb1 : (e.1 == id1) = false := by simpa using h1
      by_cases h2 : e.1 = id2
      · have hb2 : (e.1 == id2) = true := by simpa using h2
        simp only [setFirst, hb1, hb2, if_true, Bool.false_eq_true, if_false]
      · have hb2 : (e.1 == id2) = false := by simpa using h2
        simp only [setFirst, hb1, hb2, Bool.false_eq_true, if_false,
          setFirst_comm id1 id2 w1 w2 hne rest]

/-- What a refresh that returns has done: the frame resolved to `inject`, the chain returned
`html` on the source text, `inject` returned `w` on the element found for the previewer's id,
and the page is the old one with `w` stored under that id. -/
theorem updatePreviewer_ok_inv (san : Sanitizers) (fr : Frames) (p : Previewer)
    (page page2 : Page) (h : p.updatePreviewer san fr page = .ok page2) :
    ∃ inject html w, fr.injectMethod p.frameName = .ok inject ∧
      san.sanitizeChain page.inputRawHTML p.sanitizerNameList = .ok html ∧
      inject (page.getElementById p.iframeId) html = .ok w ∧
      page2 = page.setElement p.iframeId w := by
  unfold Previewer.updatePreviewer at h
  cases hf : fr.injectMethod p.frameName with
  | error e => simp [hf] at h
  | ok inject =>
    cases hr : p.renderSanitizedHTML san (p.getSourceRawHTML page) with
    | error e => simp [hf, hr] at h
    | ok sanitized =>
      cases hw : inject (page.getElementById p.iframeId) sanitized with
      | error e => simp [hf, hr, hw] at h
      | ok written =>
        simp only [hf, hr, hw, Except.ok.injEq] at h
        exact ⟨inject, sanitized, written, rfl, hr, hw, h.symm⟩

/-- Two refreshes of previewers with different surface ids that return in one order return in
the other order too, with the same final page. -/
theorem updatePreviewer_swap (san : Sanitizers) (fr : Frames) (p q : Previewer)
    (page pg1 pg2 : Page) (hne : p.iframeId ≠ q.iframeId)
    (hp : p.updatePreviewer san fr page = .ok pg1)
    (hq : q.updatePreviewer san fr pg1 = .ok pg2) :
    ∃ pg1b, q.updatePreviewer san fr page = .ok pg1b ∧
      p.updatePreviewer san fr pg1b = .ok pg2 := by
  obtain ⟨injp, htmlp, wp, hfp, hcp, hwp, rfl⟩ := updatePreviewer_ok_inv san fr p page pg1 hp
  obtain ⟨injq, htmlq, wq, hfq, hcq, hwq, rfl⟩ :=
    updatePreviewer_ok_inv san fr q (page.setElement p.iframeId wp) pg2 hq
  have hgetq : (page.setElement p.iframeId wp).getElementById q.iframeId
      = page.getElementById q.iframeId := by
    rw [getElementById_setElement, if_neg (fun h : q.iframeId = p.iframeId => hne h.symm)]
  have hgetp : (page.setElement q.iframeId wq).getElementById p.iframeId
      = page.getElementById p.iframeId := by
    rw [getElementById_setElement, if_neg hne]
  rw [hgetq] at hwq
  have hcq2 : san.sanitizeChain page.inputRawHTML q.sanitizerNameList = .ok htmlq := hcq
  refine ⟨page.setElement q.iframeId wq, ?_, ?_⟩
  · rw [updatePreviewer_of_resolved san fr q page htmlq injq hcq2 hfq, hwq]
  · have hcp2 : san.sanitizeChain (page.setElement q.iframeId wq).inputRawHTML
        p.sanitizerNameList = .ok htmlp := hcp
    rw [updatePreviewer_of_resolved san fr p _ htmlp injp hcp2 hfp, hgetp, hwp]
    simp only [Page.setElement, setFirst_comm p.iframeId q.iframeId wp wq hne]

/-- Refreshing a permutation of a list of previewers in which previewers that share a surface
id are equal: when the refreshes of the list return one after the other, so do those of the
permutation, with the same final page. -/
theorem refreshFold_perm (san : Sanitizers) (fr : Frames) (l1 l2 : List Previewer)
    (hperm : l1.Perm l2) :
    (∀ p ∈ l1, ∀ q ∈ l1, p.iframeId = q.iframeId → p = q) →
    ∀ page page1 : Page,
      l1.foldlM (fun pg (p : Previewer) => p.updatePreviewer san fr pg) page = .ok page1 →
      l2.foldlM (fun pg (p : Previewer) => p.updatePreviewer san fr pg) page = .ok page1 := by
  induction hperm with
  | nil => exact fun _ _ _ h => h
  | cons x _ ih =>
    intro hshare page page1 h
    rw [List.foldlM_cons] at h ⊢
    cases hx : x.updatePreviewer san fr page with
    | error e =>
      rw [hx] at h
      cases h
    | ok pg =>
      rw [hx] at h
      exact ih (fun p hp q hq => hshare p (List.mem_cons_of_mem _ hp) q
        (List.mem_cons_of_mem _ hq)) pg page1 h
  | swap x y l =>
    intro hshare page page1 h
    rw [List.foldlM_cons] at h
    cases hy : y.updatePreviewer san fr page with
    | error e =>
      rw [hy] at h
      cases h
    | ok pgy =>
      rw [hy] at h
      have h2 : (x :: l).foldlM (fun pg (p : Previewer) => p.updatePreviewer san fr pg) pgy
          = .ok page1 := h
      rw [List.foldlM_cons] at h2
      cases hx : x.updatePreviewer san fr pgy with
      | error e =>
        rw [hx] at h2
        cases h2
      | ok pgx =>
        rw [hx] at h2
        have h3 : l.foldlM (fun pg (p : Previewer) => p.updatePreviewer san fr pg) pgx
            = .ok page1 := h2
        by_cases hid : y.iframeId = x.iframeId
        · have hyx : y = x := hshare y (List.mem_cons_self _ _) x
            (List.mem_cons_of_mem _ (List.mem_cons_self _ _)) hid
          subst hyx
          rw [List.foldlM_cons, hy]
          show (y :: l).foldlM (fun pg (p : Previewer) => p.updatePreviewer san fr pg) pgy
            = .ok page1
          rw [List.foldlM_cons, hx]
          exact h3
        · obtain ⟨pgb, hxb, hyb⟩ := updatePreviewer_swap san fr y x page pgy pgx hid hy hx
          rw [List.foldlM_cons, hxb]
          show (y :: l).foldlM (fun pg (p : Previewer) => p.updatePreviewer san fr pg) pgb
            = .ok page1
          rw [List.foldlM_cons, hyb]
          exact h3
  | trans h12 _ ih1 ih2 =>
    intro hshare page page1 h
    exact ih2 (fun p hp q hq => hshare p (h12.mem_iff.mpr hp) q (h12.mem_iff.mpr hq))
      page page1 (ih1 hshare page page1 h)

/-- A loop that ended without exception is the fold of its steps. -/
theorem foldlM_of_forEachKeep {α : Type} (callback : Page → α → Except JsError Page) :
    ∀ (l : List α) (page : Page), (forEachKeep callback l page).thrown = none →
      l.foldlM callback page = .ok (forEachKeep callback l page).page
  | [], _, _ => rfl
  | a :: rest, page, h => by
    rw [List.foldlM_cons]
    cases hc : callback page a with
    | error e => simp [forEachKeep, hc] at h
    | ok page2 =>
      simp only [forEachKeep, hc] at h ⊢
      exact foldlM_of_forEachKeep callback rest page2 h

/-- A refresh does not look at the previewer array. -/
theorem updatePreviewer_withPreviewers (san : Sanitizers) (fr : Frames) (p : Previewer)
    (page : Page) (l : List Previewer) :
    p.updatePreviewer san fr { page with TJPreviewers := l }
      = match p.updatePreviewer san fr page with
        | .ok pg => .ok { pg with TJPreviewers := l }
        | .error e => .error e := by
  unfold Previewer.updatePreviewer
  cases hf : fr.injectMethod p.frameName with
  | error e => rfl
  | ok inject =>
    cases hr : p.renderSanitizedHTML san (p.getSourceRawHTML page) with
    | error e =>
      have hr2 : p.renderSanitizedHTML san
          (p.getSourceRawHTML { page with TJPreviewers := l }) = .error e := hr
      simp only [hr2]
    | ok sanitized =>
      have hr2 : p.renderSanitizedHTML san
          (p.getSourceRawHTML { page with TJPreviewers := l }) = .ok sanitized := hr
      have hg : ({ page with TJPreviewers := l } : Page).getElementById p.iframeId
          = page.getElementById p.iframeId := rfl
      simp only [hr2, hg]
      cases inject (page.getElementById p.iframeId) sanitized <;> rfl

/-- A sequence of refreshes does not look at the previewer array. -/
theorem refreshFold_withPreviewers (san : Sanitizers) (fr : Frames) (l : List Previewer) :
    ∀ (todo : List Previewer) (page : Page),
      todo.foldlM (fun pg (p : Previewer) => p.updatePreviewer san fr pg)
          { page with TJPreviewers := l }
        = match todo.foldlM (fun pg (p : Previewer) => p.updatePreviewer san fr pg) page with
          | .ok pg => .ok { pg with TJPreviewers := l }
          | .error e => .error e
  | [], _ => rfl
  | x :: rest, page => by
    rw [List.foldlM_cons, List.foldlM_cons, updatePreviewer_withPreviewers]
    cases hx : x.updatePreviewer san fr page with
    | error e => rfl
    | ok pg => exact refreshFold_withPreviewers san fr l rest pg

/-- C24, counterexample. The order of the sequence shows in the final surfaces in two ways,
with names that all resolve. With a Word paste filter that throws, the sequence `ogclean,
tinymceTjcss` leaves `viewer-ogclean` holding the source text, and the permuted sequence
leaves it stale. With two previewers that share the surface `viewer-x`, the surface ends with
what the last of them writes. -/
theorem refresh_order_matters :
    [ogclean, tinymceTjcss].Perm [tinymceTjcss, ogclean] ∧
    (∀ p ∈ [ogclean, tinymceTjcss],
      (∀ n ∈ p.sanitizerNameList,
        n ∈ (TJSanitizers throwingLibs).plugins.map SanitizerPlugin.name) ∧
      p.frameName ∈ TJFrames.plugins.map FramePlugin.name) ∧
    (updatePreviewers (TJSanitizers throwingLibs) TJFrames
      (twoSurfacePage [ogclean, tinymceTjcss])).page.getElementById "viewer-ogclean"
      = some { markup := "<b>hi</b>", scrollX := 0, scrollY := 0 } ∧
    (updatePreviewers (TJSanitizers throwingLibs) TJFrames
      (twoSurfacePage [tinymceTjcss, ogclean])).page.getElementById "viewer-ogclean"
      = some staleIframe ∧
    [xClean, xRedbase].Perm [xRedbase, xClean] ∧
    (updatePreviewers (TJSanitizers idLibs) TJFrames
      (sharedSurfacePage [xClean, xRedbase])).page.getElementById "viewer-x"
      = some { markup := "<html><body style=\"color: red;\"><b>hi</b></body></html>",
               scrollX := 0, scrollY := 0 } ∧
    (updatePreviewers (TJSanitizers idLibs) TJFrames
      (sharedSurfacePage [xRedbase, xClean])).page.getElementById "viewer-x"
      = some { markup := "<b>hi</b>", scrollX := 0, scrollY := 0 } :=
  ⟨List.Perm.swap _ _ _, by decide, rfl, rfl, List.Perm.swap _ _ _, rfl, rfl⟩

/-- C24, amended. For every page on which previewers that share a surface id are equal (so in
particular when the names are pairwise distinct) and on which `updatePreviewers` returns
without exception, and for every permutation of its previewer sequence: on the permuted
sequence every refresh returns as well, and `updatePreviewers` leaves every iframe of the page
in the same state as on the original sequence. -/
theorem refresh_order_independent (san : Sanitizers) (fr : Frames) (page : Page)
    (permuted : List Previewer) (hperm : page.TJPreviewers.Perm permuted)
    (hshare : ∀ p ∈ page.TJPreviewers, ∀ q ∈ page.TJPreviewers,
      p.iframeId = q.iframeId → p = q)
    (hreturns : (updatePreviewers san fr page).thrown = none) :
    (forEachKeep (fun pg (p : Previewer) => p.updatePreviewer san fr pg) permuted
      { page with TJPreviewers := permuted }).thrown = none ∧
    (updatePreviewers san fr { page with TJPreviewers := permuted }).page.iframes
      = (updatePreviewers san fr page).page.iframes := by
  have hloop : (forEachKeep (fun pg (p : Previewer) => p.updatePreviewer san fr pg)
      page.TJPreviewers page).thrown = none := by
    rw [updatePreviewers_thrown] at hreturns
    cases hl : (forEachKeep (fun pg (p : Previewer) => p.updatePreviewer san fr pg)
        page.TJPreviewers page).thrown with
    | none => rfl
    | some e => simp [hl] at hreturns
  have hfold := foldlM_of_forEachKeep _ page.TJPreviewers page hloop
  have hfold2 := refreshFold_perm san fr page.TJPreviewers permuted hperm hshare page _ hfold
  have hfold3 : permuted.foldlM (fun pg (p : Previewer) => p.updatePreviewer san fr pg)
      { page with TJPreviewers := permuted }
      = .ok { (forEachKeep (fun pg (p : Previewer) => p.updatePreviewer san fr pg)
          page.TJPreviewers page).page with TJPreviewers := permuted } := by
    rw [refreshFold_withPreviewers, hfold2]
  have hkeep := forEachKeep_of_foldlM _ permuted _ _ hfold3
  refine ⟨by rw [hkeep], ?_⟩
  rw [updatePreviewers_page, updatePreviewers_page]
  show (forEachKeep (fun pg (p : Previewer) => p.updatePreviewer san fr pg) permuted
    { page with TJPreviewers := permuted }).page.iframes = _
  rw [hkeep]

/-- C24, concrete instance of the amended statement: with libraries that return, `ogclean` and
`tinymceTjcss` in either order leave the same two surfaces. -/
theorem refresh_order_independent_witness :
    (updatePreviewers (TJSanitizers idLibs) TJFrames
      (twoSurfacePage [tinymceTjcss, ogclean])).page.iframes
      = [("viewer-ogclean", { markup := "<b>hi</b>", scrollX := 0, scrollY := 0 }),
         ("viewer-tinymceTjcss",
          { markup := "<html><body style=\"color: red;\"><b>hi</b></body></html>",
            scrollX := 0, scrollY := 0 })] :=
  (refresh_order_independent (TJSanitizers idLibs) TJFrames
    (twoSurfacePage [ogclean, tinymceTjcss]) [tinymceTjcss, ogclean]
    (List.Perm.swap _ _ _) (by decide) rfl).2.trans rfl

end Preview
